import Mathlib

/-!
Shallow embedding of the flight-schedule generation engine
(flight-routes-schedule repository) and verification of the frozen claims.

Modelling conventions:
* Instants (`Date` values in the source) are integers counting minutes since an
  arbitrary epoch; a calendar day is the floor quotient by 1440 and the local
  time of day is the remainder (the source only ever reads a date through its
  calendar day and its local hour/minute, and all mutations are linear shifts,
  so this abstraction is exact).
* `Math.random()` draws are injected as a stream `rng : Nat -> Rat` together
  with an index that advances by one per draw, exactly in source call order.
* Floating point weights are modelled by exact rationals.
* The repository contains several superseded revisions of the same files; the
  embedding follows the feature-complete revisions cited by the claims:
  the `ScheduleGenerator` with a `future_legs` buffer, the `DailyScheduler`
  with the trip loop, repetition mode and day-boundary partitioning, the
  `LegSelector` with the `preferred_airports` accumulator, the `ReturnPlanner`
  of `returnPlanner.ts`, `TimingService`, `BiasService` and
  `randomizationHelper`.
-/

set_option linter.unusedVariables false

namespace FlightSched

/-- Haul classification (`HaulType` in `outputTypes.ts`). -/
inductive HaulType where
  | short
  | medium
  | long
deriving DecidableEq, Repr

/-- A catalog route (`Route` in `apiTypes.ts`). -/
structure Route where
  route_id : Nat
  departure_iata : String
  departure_city : String
  departure_country : String
  arrival_iata : String
  arrival_city : String
  arrival_country : String
  distance_km : Int
  duration_min : Int
  airline_iata : String
  airline_name : String
deriving DecidableEq, Repr

/-- Operating hours window; the source stores strings "HH:MM" and re-parses
them with `parseTimeString`; we keep the parsed hour/minute numbers. -/
structure OperatingHours where
  startHours : Int
  startMinutes : Int
  endHours : Int
  endMinutes : Int
deriving DecidableEq, Repr

/-- Per-haul-type allow flags. -/
structure HaulPreferences where
  short : Bool
  medium : Bool
  long : Bool
deriving DecidableEq, Repr

/-- Per-haul-type selection weights. -/
structure HaulWeighting where
  short : Rat
  medium : Rat
  long : Rat
deriving DecidableEq, Repr

/-- `ScheduleConfiguration` (feature-complete variant, as used by the cited
revisions: includes `airline_iata`, `destination_repetition_bias` and
`repetition_mode`). -/
structure ScheduleConfiguration where
  airline_id : Nat
  airline_name : String
  airline_iata : Option String
  start_airport : String
  days : Nat
  haul_preferences : HaulPreferences
  haul_weighting : HaulWeighting
  prefer_single_leg_day_share : Rat
  operating_hours : OperatingHours
  turnaround_time_minutes : Int
  preferred_countries : List String
  preferred_regions : List String
  minimum_rest_hours_between_long_haul : Int
  destination_repetition_bias : Rat
  repetition_mode : Bool
deriving DecidableEq, Repr

/-- A scheduled flight leg (`FlightLeg` in `outputTypes.ts`); times are
instants in minutes. -/
structure FlightLeg where
  departure_airport : String
  arrival_airport : String
  departure_time : Int
  arrival_time : Int
  haul_type : HaulType
  duration_min : Int
  route_id : Nat
  departure_city : String
  departure_country : String
  arrival_city : String
  arrival_country : String
  airline_iata : String
  airline_name : String
  distance_km : Int
deriving DecidableEq, Repr

/-- One generated day (`DaySchedule`); `date` is the absolute calendar-day
number (the source formats it as an ISO date string). -/
structure DaySchedule where
  day : Nat
  date : Int
  legs : List FlightLeg
  overnight_location : String
  notes : List String
deriving DecidableEq, Repr

/-- The per-generation mutable aggregate (`GeneratorState`).  `visited_routes`
models the `Set` of consumed route ids, `visited_airports` the
airport-to-count `Map` as an association list. -/
structure GeneratorState where
  current_airport : String
  current_date : Int
  current_time : Int
  visited_routes : List Nat
  visited_airports : List (String × Nat)
  long_haul_block_until : Option Int
  generated_days : List DaySchedule
  consecutive_days_away_from_base : Nat
  future_legs : List FlightLeg
  preferred_airports : List String
deriving DecidableEq, Repr

/-- Final output document (`GeneratedSchedule`); the random uuid and wall-clock
creation timestamp of the source are omitted. -/
structure GeneratedSchedule where
  name : String
  config : ScheduleConfiguration
  days : List DaySchedule
deriving DecidableEq, Repr

/-! ### Date and time helpers (`dateTimeHelper.ts`, `timingService.ts`) -/

/-- Calendar-day number of an instant (`isSameDay` compares these). -/
def dayOf (t : Int) : Int := Int.ediv t 1440

/-- Local time of day in minutes (`getHours() * 60 + getMinutes()`). -/
def timeOfDay (t : Int) : Int := Int.emod t 1440

/-- Minutes-from-midnight value of the window start. -/
def startValue (oh : OperatingHours) : Int := oh.startHours * 60 + oh.startMinutes

/-- Minutes-from-midnight value of the window end. -/
def endValue (oh : OperatingHours) : Int := oh.endHours * 60 + oh.endMinutes

/-- `TimingService.isWithinOperatingHours`: time-of-day compared inclusively
against both bounds. -/
def isWithinOperatingHours (t : Int) (oh : OperatingHours) : Bool :=
  decide (startValue oh ≤ timeOfDay t ∧ timeOfDay t ≤ endValue oh)

/-- `TimingService.calculateArrivalTime`. -/
def calculateArrivalTime (departure duration : Int) : Int := departure + duration

/-! ### RouteClassifier (`routeClassifier.ts`) -/

/-- `RouteClassifier.classifyRoute`. -/
def classifyRoute (durationMinutes : Int) : HaulType :=
  if durationMinutes ≤ 180 then .short
  else if durationMinutes ≤ 360 then .medium
  else .long

/-- `groupRoutesByDeparture` followed by `Map.get(airport) ?? []`: the routes
whose departure airport is the given one, in input order. -/
def routesFromAirport (routes : List Route) (airport : String) : List Route :=
  routes.filter (fun r => decide (r.departure_iata = airport))

/-! ### Randomization helper (`randomizationHelper.ts`) -/

/-- The accumulating walk of `weightedRandomSelection`: returns the first item
whose cumulative weight is greater than or equal to the draw. -/
def cumSelect {α : Type} (randomValue : Rat) : Rat → List (α × Rat) → Option α
  | _, [] => none
  | cum, (x, w) :: rest =>
    if randomValue ≤ cum + w then some x else cumSelect randomValue (cum + w) rest

/-- `weightedRandomSelection`, with injected random stream: `none` on an empty
list (the source throws); otherwise returns the selected item and the advanced
stream index (one `Math.random()` call in either branch). -/
def weightedRandomSelection {α : Type} (rng : Nat → Rat) (ridx : Nat) :
    List (α × Rat) → Option (α × Nat)
  | [] => none
  | x :: xs =>
    let items := x :: xs
    let totalWeight := (items.map Prod.snd).sum
    if totalWeight = 0 then
      some ((items.getD (Rat.floor (rng ridx * items.length)).toNat x).1, ridx + 1)
    else
      let randomValue := rng ridx * totalWeight
      match cumSelect randomValue 0 items with
      | some y => some (y, ridx + 1)
      | none => some (x.1, ridx + 1)

/-- Weight of one haul type in a `HaulWeighting`. -/
def weightOf (w : HaulWeighting) : HaulType → Rat
  | .short => w.short
  | .medium => w.medium
  | .long => w.long

/-- `pickHaulType`: `none` models the thrown error when no type is allowed; a
single allowed type is returned without a draw. -/
def pickHaulType (rng : Nat → Rat) (ridx : Nat) (preferences : HaulPreferences)
    (weightings : HaulWeighting) : Option (HaulType × Nat) :=
  let allowedTypes : List HaulType :=
    (if preferences.short then [.short] else []) ++
    (if preferences.medium then [.medium] else []) ++
    (if preferences.long then [.long] else [])
  match allowedTypes with
  | [] => none
  | [t] => some (t, ridx)
  | ts => weightedRandomSelection rng ridx (ts.map (fun t => (t, weightOf weightings t)))

/-! ### BiasService (`biasService.ts`) -/

/-- `BiasService.getContinent`: the fixed country-to-region table; unknown
countries map to the empty string. -/
def getContinent (country : String) : String :=
  if country = "United States" then "NA"
  else if country = "Canada" then "NA"
  else if country = "Mexico" then "NA"
  else if country = "United Kingdom" then "EU"
  else if country = "France" then "EU"
  else if country = "Germany" then "EU"
  else if country = "Italy" then "EU"
  else if country = "Spain" then "EU"
  else if country = "Portugal" then "EU"
  else if country = "China" then "AS"
  else if country = "Japan" then "AS"
  else if country = "South Korea" then "AS"
  else if country = "Australia" then "OC"
  else if country = "New Zealand" then "OC"
  else if country = "Brazil" then "SA"
  else if country = "Argentina" then "SA"
  else if country = "South Africa" then "AF"
  else if country = "Egypt" then "AF"
  else if country = "Morocco" then "AF"
  else ""

/-- Visit count of an airport in the visit map (`Map.get(...) || 0`). -/
def visitCountOf (visited : List (String × Nat)) (airport : String) : Nat :=
  (visited.lookup airport).getD 0

/-- The per-route weight computed by the `routes.map` body of
`BiasService.applyBiasing`, before the strict-mode fallback reset. -/
def biasRouteWeight (cfg : ScheduleConfiguration) (visitedAirports : List (String × Nat))
    (preferredAirports : List String) (route : Route) : Rat :=
  let w0 : Rat := 1
  let w1 : Rat :=
    if preferredAirports ≠ [] ∧ cfg.destination_repetition_bias > 0 then
      if route.arrival_iata ∈ preferredAirports then
        w0 * (1 + cfg.destination_repetition_bias)
      else if cfg.destination_repetition_bias = 1 then 0
      else w0
    else w0
  let w2 : Rat :=
    if cfg.destination_repetition_bias < 1 then
      (if route.arrival_country ∈ cfg.preferred_countries then w1 * (14/10) else w1)
    else w1
  let w3 : Rat :=
    if cfg.destination_repetition_bias < 1 then
      (if getContinent route.arrival_country ∈ cfg.preferred_regions then w2 * (12/10) else w2)
    else w2
  if route.arrival_iata ∉ preferredAirports then
    let visitCount := visitCountOf visitedAirports route.arrival_iata
    if visitCount > 0 then w3 * max (3/10) (1 - (visitCount : Rat) * (1/10)) else w3
  else w3

/-- `BiasService.applyBiasing`, including the post-pass that resets every
weight to 1.0 when strict repetition mode (bias exactly 1 with a non-empty
preferred set) left no route with positive weight. -/
def applyBiasing (routes : List Route) (cfg : ScheduleConfiguration)
    (visitedAirports : List (String × Nat)) (preferredAirports : List String) :
    List (Route × Rat) :=
  let weightedRoutes := routes.map (fun r => (r, biasRouteWeight cfg visitedAirports preferredAirports r))
  if preferredAirports ≠ [] ∧ cfg.destination_repetition_bias = 1 ∧
      (weightedRoutes.filter (fun p => decide (p.2 > 0))).isEmpty then
    weightedRoutes.map (fun p => (p.1, (1 : Rat)))
  else
    weightedRoutes

/-! ### TimingService: earliest return search -/

/-- The `reduce` in the source that keeps the first route of minimal duration
(strict comparison, so the earliest-listed minimum wins). -/
def firstMinDuration (rs : List Route) : Option Route :=
  rs.foldl (fun best r =>
    match best with
    | none => some r
    | some b => if r.duration_min < b.duration_min then some r else some b) none

/-- `TimingService.findEarliestReturnFlight`: turnaround-adjusted departure,
rolled forward to the next day's window start when outside operating hours;
among direct routes to base feasible then, the (first) shortest. -/
def findEarliestReturnFlight (currentTime : Int) (currentAirport baseAirport : String)
    (routes : List Route) (cfg : ScheduleConfiguration) : Option (Route × Int) :=
  if currentAirport = baseAirport then none
  else
    let routesToBase := routes.filter (fun r =>
      decide (r.departure_iata = currentAirport ∧ r.arrival_iata = baseAirport))
    if routesToBase.isEmpty then none
    else
      let d0 := currentTime + cfg.turnaround_time_minutes
      let earliestPossibleDeparture :=
        if isWithinOperatingHours d0 cfg.operating_hours then d0
        else (dayOf d0 + 1) * 1440 + startValue cfg.operating_hours
      if isWithinOperatingHours earliestPossibleDeparture cfg.operating_hours then
        match firstMinDuration routesToBase with
        | some r => some (r, earliestPossibleDeparture)
        | none => none
      else none

/-! ### LegSelector (`legSelector.ts`, feature-complete revision) -/

/-- The airline filter predicate inside `LegSelector.selectLeg`: IATA-code
match (when a non-empty code is configured) OR case-insensitive name match
(when a non-empty name is configured). -/
def airlineMatches (cfg : ScheduleConfiguration) (route : Route) : Bool :=
  (match cfg.airline_iata with
   | some code => decide (code ≠ "" ∧ route.airline_iata = code)
   | none => false)
  || (decide (cfg.airline_name ≠ "") &&
      decide (route.airline_name.toLower = cfg.airline_name.toLower))

/-- `buildFlightLeg` (shared shape of `LegSelector.buildFlightLeg`, which
passes `current_time + turnaround` as the departure, and
`ReturnPlanner.buildFlightLeg`, which passes an explicit departure): airline
identity overridden to the configured one when non-empty. -/
def buildFlightLeg (route : Route) (departureTime : Int) (cfg : ScheduleConfiguration) :
    FlightLeg :=
  let arrivalTime := calculateArrivalTime departureTime route.duration_min
  let airlineIata :=
    match cfg.airline_iata with
    | some s => if s = "" then route.airline_iata else s
    | none => route.airline_iata
  let airlineName := if cfg.airline_name = "" then route.airline_name else cfg.airline_name
  { departure_airport := route.departure_iata
    arrival_airport := route.arrival_iata
    departure_time := departureTime
    arrival_time := arrivalTime
    haul_type := classifyRoute route.duration_min
    duration_min := route.duration_min
    route_id := route.route_id
    departure_city := route.departure_city
    departure_country := route.departure_country
    arrival_city := route.arrival_city
    arrival_country := route.arrival_country
    airline_iata := airlineIata
    airline_name := airlineName
    distance_km := route.distance_km }

/-- `Set.add` on the visited-routes set. -/
def insertIfAbsentNat (l : List Nat) (x : Nat) : List Nat :=
  if l.contains x then l else l ++ [x]

/-- `Set.add` on the preferred-airports set. -/
def insertIfAbsentStr (l : List String) (x : String) : List String :=
  if l.contains x then l else l ++ [x]

/-- `Map.set` on the visit-count map. -/
def setVisit : List (String × Nat) → String → Nat → List (String × Nat)
  | [], a, v => [(a, v)]
  | (k, x) :: rest, a, v =>
    if k = a then (a, v) :: rest else (k, x) :: setVisit rest a v

/-- `incrementAirportVisit`. -/
def bumpVisit (m : List (String × Nat)) (a : String) : List (String × Nat) :=
  setVisit m a (visitCountOf m a + 1)

/-- The state mutation performed after committing to a leg: move to its
arrival airport/time, consume its route id, bump the visit count. -/
def applyLeg (s : GeneratorState) (leg : FlightLeg) : GeneratorState :=
  { s with current_airport := leg.arrival_airport
           current_time := leg.arrival_time
           visited_routes := insertIfAbsentNat s.visited_routes leg.route_id
           visited_airports := bumpVisit s.visited_airports leg.arrival_airport }

/-- `LegSelector.selectLeg`: returns the built leg (or `none`), the updated
state (only the preferred-airports set can change here) and the advanced
random-stream index. -/
def selectLeg (rng : Nat → Rat) (s : GeneratorState) (cfg : ScheduleConfiguration)
    (haulType : HaulType) (routes : List Route) (isReturnLeg : Bool)
    (isFirstLegOfDay : Bool) (ridx : Nat) :
    Option FlightLeg × GeneratorState × Nat :=
  let availableRoutes := routesFromAirport routes s.current_airport
  let f1 := availableRoutes.filter (fun r => decide (classifyRoute r.duration_min = haulType))
  let f2 := f1.filter (airlineMatches cfg)
  let f3 := if isReturnLeg then
      f2.filter (fun r => decide (r.arrival_iata = cfg.start_airport))
    else f2
  let filteredRoutes := f3.filter (fun r => !(s.visited_routes.contains r.route_id))
  if filteredRoutes.isEmpty then (none, s, ridx)
  else
    let biasedRoutes := applyBiasing filteredRoutes cfg s.visited_airports s.preferred_airports
    let validRoutes :=
      if isWithinOperatingHours (s.current_time + cfg.turnaround_time_minutes) cfg.operating_hours
      then biasedRoutes.map Prod.fst else []
    if validRoutes.isEmpty then (none, s, ridx)
    else
      let validBiasedRoutes := validRoutes.map (fun r =>
        (r, (((biasedRoutes.find? (fun br => decide (br.1.route_id = r.route_id))).map Prod.snd).getD 1)))
      let strictMode := cfg.destination_repetition_bias = 1
      let preferredDestinations := s.preferred_airports
      let anyPreferred :=
        validBiasedRoutes.any (fun it => preferredDestinations.contains it.1.arrival_iata)
      let finalBiased :=
        if strictMode ∧ preferredDestinations ≠ [] ∧ anyPreferred = false then
          validBiasedRoutes.map (fun it => (it.1, (1 : Rat)))
        else validBiasedRoutes
      match weightedRandomSelection rng ridx finalBiased with
      | none => (none, s, ridx)
      | some (selectedRoute, ridx') =>
        let s' :=
          if isFirstLegOfDay ∧ cfg.destination_repetition_bias > 0 then
            { s with preferred_airports :=
                insertIfAbsentStr s.preferred_airports selectedRoute.arrival_iata }
          else s
        (some (buildFlightLeg selectedRoute (s.current_time + cfg.turnaround_time_minutes) cfg),
         s', ridx')

/-! ### ReturnPlanner (`returnPlanner.ts`) -/

/-- Whether a haul type is allowed by the preference flags. -/
def haulAllowedBy (p : HaulPreferences) : HaulType → Bool
  | .short => p.short
  | .medium => p.medium
  | .long => p.long

/-- The candidate filter shared by `planReturnToBase` and `planForcedReturn`:
restrict to the supplied haul type when it is configured as allowed, otherwise
to all haul types allowed by the preferences. -/
def returnHaulFilter (cfg : ScheduleConfiguration) (haulType : Option HaulType)
    (avail : List Route) : List Route :=
  match haulType with
  | some h =>
    if haulAllowedBy cfg.haul_preferences h then
      avail.filter (fun r => decide (classifyRoute r.duration_min = h))
    else
      avail.filter (fun r => haulAllowedBy cfg.haul_preferences (classifyRoute r.duration_min))
  | none =>
    avail.filter (fun r => haulAllowedBy cfg.haul_preferences (classifyRoute r.duration_min))

/-- `ReturnPlanner.planReturnToBase`. -/
def planReturnToBase (s : GeneratorState) (cfg : ScheduleConfiguration)
    (routes : List Route) (haulType : Option HaulType) : Option FlightLeg :=
  if s.current_airport = cfg.start_airport then none
  else
    let avail := routesFromAirport routes s.current_airport
    let filtered := returnHaulFilter cfg haulType avail
    let routesToBase := filtered.filter (fun r => decide (r.arrival_iata = cfg.start_airport))
    if routesToBase.isEmpty then none
    else
      match findEarliestReturnFlight s.current_time s.current_airport cfg.start_airport
          routesToBase cfg with
      | none => none
      | some (r, dep) => some (buildFlightLeg r dep cfg)

/-- `ReturnPlanner.planForcedReturn`: a next-day single-leg day departing one
hour after the window opens, on the shortest direct route to base. -/
def planForcedReturn (s : GeneratorState) (cfg : ScheduleConfiguration)
    (routes : List Route) (dayNumber : Nat) (haulType : Option HaulType) :
    Option DaySchedule :=
  if s.current_airport = cfg.start_airport then none
  else
    let avail := routesFromAirport routes s.current_airport
    let filtered := returnHaulFilter cfg haulType avail
    let routesToBase := filtered.filter (fun r => decide (r.arrival_iata = cfg.start_airport))
    if routesToBase.isEmpty then none
    else
      let nextDay := s.current_date + 1
      let morningTime := nextDay * 1440 + startValue cfg.operating_hours + 60
      match firstMinDuration routesToBase with
      | none => none
      | some r =>
        some { day := dayNumber
               date := nextDay
               legs := [buildFlightLeg r morningTime cfg]
               overnight_location := cfg.start_airport
               notes := ["Forced return to base"] }

/-! ### DailyScheduler (`dailyScheduler.ts`, feature-complete revision) -/

/-- Result record of `planTrip` / `planRepeatedTrip`. -/
structure TripResult where
  success : Bool
  message : String
  legs : List FlightLeg
deriving DecidableEq, Repr

/-- `selectDayStyle`: `true` means single-destination; repetition mode forces
it without a draw, otherwise one draw is compared against the configured
single-leg-day share. -/
def selectDayStyle (rng : Nat → Rat) (cfg : ScheduleConfiguration) (ridx : Nat) :
    Bool × Nat :=
  if cfg.repetition_mode then (true, ridx)
  else (decide (rng ridx < cfg.prefer_single_leg_day_share), ridx + 1)

/-- `DailyScheduler.planTrip`: first leg, optional onward leg (multi-leg style,
non-long haul, not repetition mode), then a return to base with the same haul
type.  State mutations (also on the failure path after a flown first leg)
mirror the source. -/
def planTrip (rng : Nat → Rat) (s : GeneratorState) (cfg : ScheduleConfiguration)
    (haulType : HaulType) (routes : List Route) (ridx : Nat) :
    TripResult × GeneratorState × Nat :=
  let (single, r1) := selectDayStyle rng cfg ridx
  match selectLeg rng s cfg haulType routes false false r1 with
  | (none, s', r2) =>
    ({ success := false, message := "No suitable routes available for first leg", legs := [] },
     s', r2)
  | (some firstLeg, sA, r2) =>
    let s2 := applyLeg sA firstLeg
    let step2 : List FlightLeg × GeneratorState × Nat :=
      if single = false ∧ haulType ≠ .long ∧ cfg.repetition_mode = false then
        match selectLeg rng s2 cfg haulType routes false false r2 with
        | (some secondLeg, s', r') => ([firstLeg, secondLeg], applyLeg s' secondLeg, r')
        | (none, s', r') => ([firstLeg], s', r')
      else ([firstLeg], s2, r2)
    match step2 with
    | (legs2, s3, r3) =>
      if s3.current_airport = cfg.start_airport then
        ({ success := true, message := "Trip planned successfully", legs := legs2 }, s3, r3)
      else
        match planReturnToBase s3 cfg routes (some haulType) with
        | some returnLeg =>
          ({ success := true, message := "Trip planned successfully", legs := legs2 ++ [returnLeg] },
           applyLeg s3 returnLeg, r3)
        | none =>
          ({ success := false, message := "Cannot return to base", legs := legs2 }, s3, r3)

/-- `DailyScheduler.planRepeatedTrip`: replays the stored outbound/return pair
with recomputed times; on an unreturnable outbound the state is teleported
back to base (source comment: maintain state consistency). -/
def planRepeatedTrip (s : GeneratorState) (cfg : ScheduleConfiguration)
    (outboundLeg returnLeg : FlightLeg) : TripResult × GeneratorState :=
  let newOutDep := s.current_time + cfg.turnaround_time_minutes
  if isWithinOperatingHours newOutDep cfg.operating_hours then
    let outDur := outboundLeg.arrival_time - outboundLeg.departure_time
    let newOutboundLeg :=
      { outboundLeg with departure_time := newOutDep, arrival_time := newOutDep + outDur }
    let s1 := applyLeg s newOutboundLeg
    let newRetDep := s1.current_time + cfg.turnaround_time_minutes
    if isWithinOperatingHours newRetDep cfg.operating_hours then
      let retDur := returnLeg.arrival_time - returnLeg.departure_time
      let newReturnLeg :=
        { returnLeg with departure_time := newRetDep, arrival_time := newRetDep + retDur }
      ({ success := true, message := "Repeated trip planned successfully",
         legs := [newOutboundLeg, newReturnLeg] },
       applyLeg s1 newReturnLeg)
    else
      ({ success := false, message := "Cannot complete return flight - outside operating hours",
         legs := [newOutboundLeg] },
       { s1 with current_airport := cfg.start_airport })
  else
    ({ success := false, message := "Cannot schedule more flights today - outside operating hours",
       legs := [] }, s)

/-- `DailyScheduler.selectHaulType` with its fallback chain: long haul removed
while a rest block is active; when no type is allowed, all types are
temporarily re-enabled (weights floored at 0.1, long re-disabled while a block
timestamp exists); last resort is short haul. -/
def selectHaulType (rng : Nat → Rat) (ridx : Nat) (s : GeneratorState)
    (cfg : ScheduleConfiguration) : HaulType × Nat :=
  let blockActive : Bool :=
    match s.long_haul_block_until with
    | some b => decide (s.current_time < b)
    | none => false
  let currentPreferences :=
    if blockActive then { cfg.haul_preferences with long := false } else cfg.haul_preferences
  match pickHaulType rng ridx currentPreferences cfg.haul_weighting with
  | some (t, r') => (t, r')
  | none =>
    if !currentPreferences.short && !currentPreferences.medium && !currentPreferences.long then
      let tempPreferences : HaulPreferences :=
        { short := true, medium := true, long := s.long_haul_block_until.isNone }
      let tempWeightings : HaulWeighting :=
        { short := max cfg.haul_weighting.short (1/10)
          medium := max cfg.haul_weighting.medium (1/10)
          long := if s.long_haul_block_until.isSome then 0
                  else max cfg.haul_weighting.long (1/10) }
      match pickHaulType rng ridx tempPreferences tempWeightings with
      | some (t, r') => (t, r')
      | none => (.short, ridx)
    else (.short, ridx)

/-- State of the `while (canPlanMoreTrips)` loop of `generateDailySchedule`:
the shared generator state, the day legs and notes accumulated so far, the
intermediate overnight field, the stored repetition pair, the random-stream
index and the exit flag. -/
structure LoopSt where
  gs : GeneratorState
  legs : List FlightLeg
  notes : List String
  overnight : String
  repOut : Option FlightLeg
  repRet : Option FlightLeg
  ridx : Nat
  done : Bool
deriving DecidableEq, Repr

/-- Post-trip processing of one loop iteration: failure note, partition of the
trip legs by calendar day with the overflow buffer, curfew / day-boundary exit
checks, and the long-haul rest block. -/
def dayStepFinish (cfg : ScheduleConfiguration) (haulType : HaulType)
    (originalDate : Int) (s : LoopSt) (tr : TripResult) : LoopSt :=
  if tr.success = false then
    { s with notes := s.notes ++ [tr.message], done := true }
  else
    let currentDayLegs := tr.legs.filter (fun l => decide (dayOf l.departure_time = originalDate))
    let futureDayLegs := tr.legs.filter (fun l => decide (dayOf l.departure_time ≠ originalDate))
    let s2 := { s with legs := s.legs ++ currentDayLegs }
    if futureDayLegs.isEmpty = false then
      { s2 with
        gs := { s2.gs with future_legs := futureDayLegs }
        notes := s2.notes ++ ["Calendar day boundary reached - remaining flights will be added to next day"]
        overnight := match currentDayLegs.getLast? with
          | some l => l.arrival_airport
          | none => s2.overnight
        done := true }
    else
      let hasTime := isWithinOperatingHours (s2.gs.current_time + cfg.turnaround_time_minutes)
        cfg.operating_hours
      let sameDay : Bool := decide (dayOf s2.gs.current_time = originalDate)
      let s3 :=
        if hasTime = false ∨ sameDay = false then
          { s2 with
            notes := s2.notes ++ [if sameDay = false then
                "Calendar day boundary reached - remaining flights will be added to next day"
              else "No more time for additional trips today"]
            done := true }
        else s2
      if haulType = .long then
        let blockUntil := s3.gs.current_time + cfg.minimum_rest_hours_between_long_haul * 60
        { s3 with
          gs := { s3.gs with long_haul_block_until := some blockUntil }
          notes := s3.notes ++ ["Long haul flight, rest required"] }
      else s3

/-- One iteration (body) of the trip-planning loop: not-at-base guard, then
either a repetition replay or a fresh trip (storing the repetition pair when
applicable), then `dayStepFinish`. -/
def dayStep (rng : Nat → Rat) (cfg : ScheduleConfiguration) (routes : List Route)
    (haulType : HaulType) (originalDate : Int) (s : LoopSt) : LoopSt :=
  if s.gs.current_airport ≠ cfg.start_airport then
    { s with
      notes := s.notes ++
        ["Cannot plan more trips - not at base (at " ++ s.gs.current_airport ++ ")"]
      done := true }
  else
    match cfg.repetition_mode, s.repOut, s.repRet with
    | true, some outLeg, some retLeg =>
      let (tr, gs') := planRepeatedTrip s.gs cfg outLeg retLeg
      dayStepFinish cfg haulType originalDate { s with gs := gs' } tr
    | _, _, _ =>
      let (tr, gs', ridx') := planTrip rng s.gs cfg haulType routes s.ridx
      let s1 :=
        if cfg.repetition_mode = true ∧ tr.success = true ∧ 2 ≤ tr.legs.length then
          { s with
            gs := gs', ridx := ridx'
            repOut := tr.legs.head?, repRet := tr.legs.getLast?
            notes := if 2 < tr.legs.length then
                s.notes ++ ["Repetition mode active: Only the first destination will be used for repeated trips"]
              else s.notes }
        else { s with gs := gs', ridx := ridx' }
      dayStepFinish cfg haulType originalDate s1 tr

/-- Fuel bound for the trip-planning loop; proved below to exceed the number
of iterations the loop can perform before exiting whenever the turnaround is
positive and durations are non-negative. -/
def FUEL : Nat := 2000

/-- The `while (canPlanMoreTrips)` loop with fuel: stops as soon as the exit
flag is set, otherwise runs the body `dayStep`. -/
def dayLoop (rng : Nat → Rat) (cfg : ScheduleConfiguration) (routes : List Route)
    (haulType : HaulType) (originalDate : Int) : Nat → LoopSt → LoopSt
  | 0, s => s
  | Nat.succ n, s =>
    if s.done = true then s
    else dayLoop rng cfg routes haulType originalDate n
      (dayStep rng cfg routes haulType originalDate s)

/-- The pre-loop part of `generateDailySchedule`: haul-type selection and the
initial loop state (with the long-haul-block note when a block is active). -/
def dayLoopInit (rng : Nat → Rat) (ridx : Nat) (gs : GeneratorState)
    (cfg : ScheduleConfiguration) : HaulType × LoopSt :=
  let (haulType, r1) := selectHaulType rng ridx gs cfg
  let notes0 : List String :=
    match gs.long_haul_block_until with
    | some b => if gs.current_time < b then ["Long haul block active"] else []
    | none => []
  (haulType,
   { gs := gs, legs := [], notes := notes0, overnight := gs.current_airport,
     repOut := none, repRet := none, ridx := r1, done := false })

/-- `DailyScheduler.generateDailySchedule`: runs the loop, then the end-of-day
block that records the overnight location and updates the
consecutive-days-away counter. -/
def generateDailySchedule (rng : Nat → Rat) (day : Nat) (gs : GeneratorState)
    (cfg : ScheduleConfiguration) (routes : List Route) (ridx : Nat) :
    DaySchedule × GeneratorState × Nat :=
  let originalDate := gs.current_date
  let (haulType, init) := dayLoopInit rng ridx gs cfg
  let fin := dayLoop rng cfg routes haulType originalDate FUEL init
  if fin.gs.current_airport ≠ cfg.start_airport then
    let counter' := fin.gs.consecutive_days_away_from_base + 1
    let notes' := fin.notes ++ ["Overnight layover required"] ++
      (if 2 ≤ counter' then ["Will force return to base next morning"] else [])
    ({ day := day, date := originalDate, legs := fin.legs,
       overnight_location := fin.gs.current_airport, notes := notes' },
     { fin.gs with consecutive_days_away_from_base := counter' }, fin.ridx)
  else
    ({ day := day, date := originalDate, legs := fin.legs,
       overnight_location := fin.gs.current_airport, notes := fin.notes },
     { fin.gs with consecutive_days_away_from_base := 0 }, fin.ridx)

/-! ### ScheduleGenerator (`scheduleGenerator.ts`, revision with the overflow
buffer) -/

/-- `ScheduleGenerator.handleOvernightReturn`: at two or more consecutive
nights away, attempt a return to base; on success move there and reset the
counter, otherwise leave the state unchanged. -/
def handleOvernightReturn (s : GeneratorState) (cfg : ScheduleConfiguration)
    (routes : List Route) : GeneratorState :=
  if 2 ≤ s.consecutive_days_away_from_base then
    match planReturnToBase s cfg routes none with
    | some returnLeg =>
      { applyLeg s returnLeg with consecutive_days_away_from_base := 0 }
    | none => s
  else s

/-- `ScheduleGenerator.processFutureLegs`: emit a day holding the buffered
overflow legs that depart on the current calendar date; leave the rest
buffered; the away-counter is not touched. -/
def processFutureLegs (s : GeneratorState) (day : Nat) : GeneratorState :=
  if s.future_legs.isEmpty then s
  else
    let currentDayLegs := s.future_legs.filter (fun l =>
      decide (dayOf l.departure_time = s.current_date))
    let rest := s.future_legs.filter (fun l =>
      decide (dayOf l.departure_time ≠ s.current_date))
    match currentDayLegs.getLast? with
    | some lastLeg =>
      let d : DaySchedule :=
        { day := day, date := s.current_date, legs := currentDayLegs,
          overnight_location := lastLeg.arrival_airport,
          notes := ["Contains legs from the previous day that crossed the calendar day boundary"] }
      { s with future_legs := rest
               current_airport := lastLeg.arrival_airport
               current_time := lastLeg.arrival_time
               generated_days := s.generated_days ++ [d] }
    | none =>
      let d : DaySchedule :=
        { day := day, date := s.current_date, legs := currentDayLegs,
          overnight_location := s.current_airport,
          notes := ["Contains legs from the previous day that crossed the calendar day boundary"] }
      { s with future_legs := rest, generated_days := s.generated_days ++ [d] }

/-- The day-building part of one generator-loop iteration: either the
overflow-buffer day or a normally scheduled day. -/
def oneGenDayCore (rng : Nat → Rat) (cfg : ScheduleConfiguration) (routes : List Route)
    (day : Nat) (s1 : GeneratorState) (ridx : Nat) : GeneratorState × Nat :=
  if s1.future_legs.isEmpty = false then (processFutureLegs s1 day, ridx)
  else
    match generateDailySchedule rng day s1 cfg routes ridx with
    | (d, gs', r') =>
      ({ gs' with generated_days := gs'.generated_days ++ [d]
                  current_airport := d.overnight_location }, r')

/-- One iteration of the generator's day loop: overnight-return handling,
then `oneGenDayCore`, then the advance to the next calendar day with the
clock reset to the window start. -/
def oneGenDay (rng : Nat → Rat) (cfg : ScheduleConfiguration) (routes : List Route)
    (day : Nat) (s : GeneratorState) (ridx : Nat) : GeneratorState × Nat :=
  let s1 := if s.current_airport ≠ cfg.start_airport then
      handleOvernightReturn s cfg routes
    else s
  match oneGenDayCore rng cfg routes day s1 ridx with
  | (s2, ridx') =>
    ({ s2 with current_date := s2.current_date + 1
               current_time := (s2.current_date + 1) * 1440 + startValue cfg.operating_hours },
     ridx')

/-- The generator's day loop over the day indices `1..days`. -/
def genDays (rng : Nat → Rat) (cfg : ScheduleConfiguration) (routes : List Route) :
    List Nat → GeneratorState × Nat → GeneratorState × Nat
  | [], acc => acc
  | d :: ds, (s, ridx) => genDays rng cfg routes ds (oneGenDay rng cfg routes d s ridx)

/-- `ScheduleGenerator.initializeState`; `startDay` stands for the calendar
day of `new Date()` at the moment of the call. -/
def initializeState (cfg : ScheduleConfiguration) (startDay : Int) : GeneratorState :=
  { current_airport := cfg.start_airport
    current_date := startDay
    current_time := startDay * 1440 + startValue cfg.operating_hours
    visited_routes := []
    visited_airports := [(cfg.start_airport, 1)]
    long_haul_block_until := none
    generated_days := []
    consecutive_days_away_from_base := 0
    future_legs := []
    preferred_airports := [] }

/-- The post-loop forced return of `generateSchedule`: when still away from
base, append one forced-return day if one can be planned. -/
def finalForcedReturn (s : GeneratorState) (cfg : ScheduleConfiguration)
    (routes : List Route) : GeneratorState :=
  if s.current_airport ≠ cfg.start_airport then
    match planForcedReturn s cfg routes (s.generated_days.length + 1) none with
    | some d => { s with generated_days := s.generated_days ++ [d] }
    | none => s
  else s

/-- The post-loop drain of leftover overflow legs of `generateSchedule`. -/
def finalFutureDrain (s : GeneratorState) : GeneratorState :=
  if s.future_legs.isEmpty = false then
    processFutureLegs s (s.generated_days.length + 1)
  else s

/-- `ScheduleGenerator.generateSchedule` up to the final state: the day loop,
the final forced return when still away from base, and the drain of leftover
overflow legs. -/
def generateScheduleState (rng : Nat → Rat) (cfg : ScheduleConfiguration)
    (routes : List Route) (startDay : Int) : GeneratorState × Nat :=
  let s0 := initializeState cfg startDay
  match genDays rng cfg routes (List.range' 1 cfg.days) (s0, 0) with
  | (s1, r1) => (finalFutureDrain (finalForcedReturn s1 cfg routes), r1)

/-- `ScheduleGenerator.generateSchedule`: the assembled output document. -/
def generateSchedule (rng : Nat → Rat) (cfg : ScheduleConfiguration)
    (routes : List Route) (startDay : Int) : GeneratedSchedule :=
  { name := cfg.airline_name ++ " " ++ toString cfg.days ++ "-Day Schedule"
    config := cfg
    days := (generateScheduleState rng cfg routes startDay).1.generated_days }

/-- `validateConfiguration` (`configValidator.ts`), as a boolean: true iff the
error list is empty. -/
def validateConfiguration (cfg : ScheduleConfiguration) : Bool :=
  decide (cfg.airline_id ≠ 0) &&
  decide (cfg.airline_name ≠ "") &&
  decide (cfg.start_airport ≠ "") &&
  decide (1 ≤ cfg.days ∧ cfg.days ≤ 30) &&
  (cfg.haul_preferences.short || cfg.haul_preferences.medium || cfg.haul_preferences.long) &&
  decide (0 ≤ cfg.haul_weighting.short ∧ 0 ≤ cfg.haul_weighting.medium ∧
    0 ≤ cfg.haul_weighting.long) &&
  decide (0 ≤ cfg.prefer_single_leg_day_share ∧ cfg.prefer_single_leg_day_share ≤ 1) &&
  decide (0 ≤ cfg.operating_hours.startHours ∧ cfg.operating_hours.startHours ≤ 23 ∧
    0 ≤ cfg.operating_hours.endHours ∧ cfg.operating_hours.endHours ≤ 23 ∧
    0 ≤ cfg.operating_hours.startMinutes ∧ cfg.operating_hours.startMinutes ≤ 59 ∧
    0 ≤ cfg.operating_hours.endMinutes ∧ cfg.operating_hours.endMinutes ≤ 59) &&
  decide (0 ≤ cfg.destination_repetition_bias ∧ cfg.destination_repetition_bias ≤ 1) &&
  decide (30 ≤ cfg.turnaround_time_minutes ∧ cfg.turnaround_time_minutes ≤ 180) &&
  decide (6 ≤ cfg.minimum_rest_hours_between_long_haul ∧
    cfg.minimum_rest_hours_between_long_haul ≤ 24)

/-! ### Concrete fixtures used by witnesses and counterexamples -/

/-- Test route London to Paris (short haul), mirroring the repository's test
fixtures. -/
def routeLHRCDG : Route :=
  { route_id := 1, departure_iata := "LHR", departure_city := "London",
    departure_country := "United Kingdom", arrival_iata := "CDG",
    arrival_city := "Paris", arrival_country := "France", distance_km := 350,
    duration_min := 80, airline_iata := "BA", airline_name := "British Airways" }

/-- Test route Paris to London (short haul). -/
def routeCDGLHR : Route :=
  { route_id := 2, departure_iata := "CDG", departure_city := "Paris",
    departure_country := "France", arrival_iata := "LHR",
    arrival_city := "London", arrival_country := "United Kingdom",
    distance_km := 350, duration_min := 85, airline_iata := "BA",
    airline_name := "British Airways" }

/-- A baseline valid configuration: base LHR, 3 days, short haul only,
06:00-22:00 window, 30-minute turnaround. -/
def cfgBase : ScheduleConfiguration :=
  { airline_id := 24, airline_name := "British Airways", airline_iata := some "BA",
    start_airport := "LHR", days := 3,
    haul_preferences := { short := true, medium := false, long := false },
    haul_weighting := { short := 1, medium := 0, long := 0 },
    prefer_single_leg_day_share := 1,
    operating_hours := { startHours := 6, startMinutes := 0, endHours := 22, endMinutes := 0 },
    turnaround_time_minutes := 30,
    preferred_countries := [], preferred_regions := [],
    minimum_rest_hours_between_long_haul := 8,
    destination_repetition_bias := 0, repetition_mode := false }

/-- The constant-zero injected random stream. -/
def rngZero : Nat → Rat := fun _ => 0

/-! ## Claim C7: haul classification boundaries -/

/-- C7: for every duration d, `classifyRoute d` is short iff d ≤ 180, medium
iff 181 ≤ d ≤ 360 and long iff d > 360; in particular 180 is short, 181 and
360 are medium and 361 is long. -/
theorem claim_C7_classifyRoute_boundaries (d : Int) :
    (classifyRoute d = .short ↔ d ≤ 180) ∧
    (classifyRoute d = .medium ↔ 181 ≤ d ∧ d ≤ 360) ∧
    (classifyRoute d = .long ↔ 360 < d) ∧
    classifyRoute 180 = .short ∧ classifyRoute 181 = .medium ∧
    classifyRoute 360 = .medium ∧ classifyRoute 361 = .long := by
  refine ⟨?_, ?_, ?_, by decide, by decide, by decide, by decide⟩ <;>
    · unfold classifyRoute
      split_ifs with h1 h2 <;> simp <;> omega

/-! ## Claim C3: weighted random selection on the weight list [0, 0, 5] -/

/-- C3 counterexample: with injected random value 0 the draw is 0, and the
first zero-weight candidate already satisfies the cumulative test
(`randomValue <= cumulativeWeight` with both sides 0), so the FIRST item is
returned; the claim asserts the third item for every r in [0,1). -/
theorem claim_C3_counterexample :
    weightedRandomSelection rngZero 0 [((1 : Nat), (0 : Rat)), (2, 0), (3, 5)] =
      some (1, 1) := by
  norm_num [weightedRandomSelection, cumSelect, rngZero]

/-- C3 amended: the algorithm is as described (total weight, uniform fallback
at total 0, cumulative walk), and on the weight list [0, 0, 5] the third item
is selected for every injected random value r with 0 < r < 1; at r = 0 the
first item is selected instead. -/
theorem claim_C3_amended (rng : Nat → Rat) (ridx : Nat)
    (h0 : 0 < rng ridx) (h1 : rng ridx < 1) :
    weightedRandomSelection rng ridx [((1 : Nat), (0 : Rat)), (2, 0), (3, 5)] =
      some (3, ridx + 1) := by
  have hA : ¬ (rng ridx * 5 ≤ 0) := by nlinarith
  have hB : rng ridx ≤ 1 := le_of_lt h1
  simp only [weightedRandomSelection, cumSelect, List.map_cons, List.map_nil,
    List.sum_cons, List.sum_nil]
  norm_num [hA, hB]

/-- Witness for the amended C3 at the concrete injected value 1/2. -/
theorem claim_C3_amended_witness :
    (0 : Rat) < (1 : Rat) / 2 ∧ (1 : Rat) / 2 < 1 ∧
    weightedRandomSelection (fun _ => (1 : Rat) / 2) 0
      [((1 : Nat), (0 : Rat)), (2, 0), (3, 5)] = some (3, 1) :=
  ⟨by norm_num, by norm_num,
    claim_C3_amended (fun _ => (1 : Rat) / 2) 0 (by norm_num) (by norm_num)⟩

/-! ## Claim C4: the airline filter in selectLeg -/

/-- A route operated under IATA code "XX" whose operator name matches the
configured airline name case-insensitively. -/
def routeC4 : Route :=
  { routeLHRCDG with airline_iata := "XX", airline_name := "British Airways" }

/-- C4 counterexample: `cfgBase` provides the airline IATA code "BA", yet
`routeC4` (operated under code "XX") passes the airline filter through the
case-insensitive name comparison; the claim asserts that with a configured
IATA code a route passes if and only if its code equals the configured one. -/
theorem claim_C4_counterexample :
    cfgBase.airline_iata = some "BA" ∧ routeC4.airline_iata = "XX" ∧
    airlineMatches cfgBase routeC4 = true := by
  refine ⟨rfl, rfl, ?_⟩
  simp [airlineMatches, cfgBase, routeC4, routeLHRCDG]

/-- C4 amended: a route passes the airline filter iff its IATA code equals a
configured non-empty code OR its name matches the configured non-empty name
case-insensitively; the name check is a parallel disjunct, not a fallback
used only when no IATA code is configured. -/
theorem claim_C4_amended (cfg : ScheduleConfiguration) (r : Route) :
    airlineMatches cfg r = true ↔
      ((∃ code, cfg.airline_iata = some code ∧ code ≠ "" ∧ r.airline_iata = code) ∨
       (cfg.airline_name ≠ "" ∧ r.airline_name.toLower = cfg.airline_name.toLower)) := by
  unfold airlineMatches
  rcases h : cfg.airline_iata with _ | code <;>
    simp [h, Bool.or_eq_true, decide_eq_true_iff, and_assoc]

/-! ## Claim C6: the biasing weight formula -/

/-- Modelled from the claim C6 / spec 4.3 wording: the asserted per-route
weight formula.  It differs from the source in two places: it has no
strict-mode fallback reset, and an unknown arrival country (empty region)
never receives the region bonus. -/
def claimedBiasWeight (cfg : ScheduleConfiguration) (visited : List (String × Nat))
    (preferred : List String) (r : Route) : Rat :=
  let b := cfg.destination_repetition_bias
  let w1 : Rat :=
    if preferred ≠ [] ∧ b > 0 then
      if r.arrival_iata ∈ preferred then 1 * (1 + b)
      else if b = 1 then 0 else 1
    else 1
  let w2 : Rat :=
    if b < 1 ∧ r.arrival_country ∈ cfg.preferred_countries then w1 * (14/10) else w1
  let w3 : Rat :=
    if b < 1 ∧ getContinent r.arrival_country ≠ "" ∧
        getContinent r.arrival_country ∈ cfg.preferred_regions then w2 * (12/10)
    else w2
  if r.arrival_iata ∈ preferred then w3
  else w3 * max (3/10) (1 - (visitCountOf visited r.arrival_iata : Rat) * (1/10))

/-- A candidate route arriving at a non-preferred airport with an unknown
country. -/
def routeC6 : Route := { routeLHRCDG with arrival_iata := "BBB", arrival_country := "Nowhere" }

/-- Strict-repetition configuration (bias exactly 1). -/
def cfgC6 : ScheduleConfiguration := { cfgBase with destination_repetition_bias := 1 }

/-- C6 counterexample: with preferred set {AAA}, bias 1 and the single
candidate `routeC6` arriving elsewhere, the claimed formula zeroes the weight,
but `applyBiasing` finds no positive-weight route and resets the weight to
1.0, so the produced weight is 1, not 0. -/
theorem claim_C6_counterexample :
    applyBiasing [routeC6] cfgC6 [] ["AAA"] = [(routeC6, 1)] ∧
    claimedBiasWeight cfgC6 [] ["AAA"] routeC6 = 0 := by
  constructor
  · simp [applyBiasing, biasRouteWeight, cfgC6, cfgBase, routeC6, routeLHRCDG,
      visitCountOf, getContinent]
  · simp [claimedBiasWeight, cfgC6, cfgBase, routeC6, routeLHRCDG,
      visitCountOf, getContinent]

/-- The amended per-route weight formula: like `claimedBiasWeight` but with
the region bonus keyed purely on membership of the looked-up region (so the
lookup result for an unknown country, the empty string, can itself match a
preferred region). -/
def amendedBiasWeight (cfg : ScheduleConfiguration) (visited : List (String × Nat))
    (preferred : List String) (r : Route) : Rat :=
  let b := cfg.destination_repetition_bias
  let w1 : Rat :=
    if preferred ≠ [] ∧ b > 0 then
      if r.arrival_iata ∈ preferred then 1 * (1 + b)
      else if b = 1 then 0 else 1
    else 1
  let w2 : Rat :=
    if b < 1 ∧ r.arrival_country ∈ cfg.preferred_countries then w1 * (14/10) else w1
  let w3 : Rat :=
    if b < 1 ∧ getContinent r.arrival_country ∈ cfg.preferred_regions then w2 * (12/10)
    else w2
  if r.arrival_iata ∈ preferred then w3
  else w3 * max (3/10) (1 - (visitCountOf visited r.arrival_iata : Rat) * (1/10))

/-- The per-route map body of the source equals the amended formula. -/
theorem biasRouteWeight_eq_amended (cfg : ScheduleConfiguration)
    (visited : List (String × Nat)) (preferred : List String) (r : Route) :
    biasRouteWeight cfg visited preferred r = amendedBiasWeight cfg visited preferred r := by
  have hnov : ∀ w : Rat,
      (if visitCountOf visited r.arrival_iata > 0 then
        w * max (3/10) (1 - (visitCountOf visited r.arrival_iata : Rat) * (1/10)) else w) =
      w * max (3/10) (1 - (visitCountOf visited r.arrival_iata : Rat) * (1/10)) := by
    intro w
    rcases Nat.eq_zero_or_pos (visitCountOf visited r.arrival_iata) with h | h
    · rw [h]
      norm_num
    · simp [h]
  unfold biasRouteWeight amendedBiasWeight
  simp only [one_mul]
  by_cases hb : cfg.destination_repetition_bias < 1 <;>
    by_cases hc : r.arrival_country ∈ cfg.preferred_countries <;>
    by_cases hr : getContinent r.arrival_country ∈ cfg.preferred_regions <;>
    by_cases hm : r.arrival_iata ∈ preferred <;>
    (simp [hb, hc, hr, hm, hnov]
     try
       intro h0
       rw [h0]
       norm_num [max_eq_right])

/-- Under strict mode (bias exactly 1, non-empty preferred set), a candidate
gets positive pre-reset weight iff it arrives at a preferred airport. -/
theorem biasRouteWeight_pos_iff (cfg : ScheduleConfiguration)
    (visited : List (String × Nat)) (preferred : List String) (r : Route)
    (hb : cfg.destination_repetition_bias = 1) (hp : preferred ≠ []) :
    0 < biasRouteWeight cfg visited preferred r ↔ r.arrival_iata ∈ preferred := by
  unfold biasRouteWeight
  by_cases hm : r.arrival_iata ∈ preferred <;> simp [hm, hp, hb]

/-- C6 amended: `applyBiasing` assigns every candidate the claimed
multiplicative weight, with two corrections: the region bonus is keyed purely
on the country lookup table (an empty-string preferred region matches unknown
countries), and when bias = 1 with a non-empty preferred set leaves no
candidate arriving at a preferred airport, all weights are reset to 1.0. -/
theorem claim_C6_amended (routes : List Route) (cfg : ScheduleConfiguration)
    (visited : List (String × Nat)) (preferred : List String) :
    applyBiasing routes cfg visited preferred =
      routes.map (fun r => (r,
        if preferred ≠ [] ∧ cfg.destination_repetition_bias = 1 ∧
            (∀ r' ∈ routes, r'.arrival_iata ∉ preferred)
        then (1 : Rat) else amendedBiasWeight cfg visited preferred r)) := by
  unfold applyBiasing
  have hcond : (preferred ≠ [] ∧ cfg.destination_repetition_bias = 1 ∧
      ((routes.map (fun r => (r, biasRouteWeight cfg visited preferred r))).filter
        (fun p => decide (p.2 > 0))).isEmpty = true) ↔
      (preferred ≠ [] ∧ cfg.destination_repetition_bias = 1 ∧
        (∀ r' ∈ routes, r'.arrival_iata ∉ preferred)) := by
    constructor
    · rintro ⟨hp, hb, hempty⟩
      refine ⟨hp, hb, fun r' hr' hmem => ?_⟩
      rw [List.isEmpty_iff, List.filter_eq_nil_iff] at hempty
      have := hempty (r', biasRouteWeight cfg visited preferred r')
        (List.mem_map_of_mem _ hr')
      simp only [decide_eq_true_eq] at this
      exact this ((biasRouteWeight_pos_iff cfg visited preferred r' hb hp).2 hmem)
    · rintro ⟨hp, hb, hnone⟩
      refine ⟨hp, hb, ?_⟩
      rw [List.isEmpty_iff, List.filter_eq_nil_iff]
      intro p hmem
      rw [List.mem_map] at hmem
      obtain ⟨a, ha, rfl⟩ := hmem
      simp only [decide_eq_true_eq]
      intro hpos
      exact hnone a ha ((biasRouteWeight_pos_iff cfg visited preferred a hb hp).1 hpos)
  rw [if_congr hcond rfl rfl]
  by_cases h : preferred ≠ [] ∧ cfg.destination_repetition_bias = 1 ∧
      (∀ r' ∈ routes, r'.arrival_iata ∉ preferred)
  · rw [if_pos h]
    simp [if_pos h, List.map_map, Function.comp]
  · rw [if_neg h]
    simp only [if_neg h]
    exact List.map_congr_left (fun a ha =>
      congrArg _ (biasRouteWeight_eq_amended cfg visited preferred a))

/-! ## Structural lemmas about the day loop -/

@[simp] theorem applyLeg_generated_days (s : GeneratorState) (l : FlightLeg) :
    (applyLeg s l).generated_days = s.generated_days := rfl

@[simp] theorem applyLeg_counter (s : GeneratorState) (l : FlightLeg) :
    (applyLeg s l).consecutive_days_away_from_base = s.consecutive_days_away_from_base := rfl

@[simp] theorem applyLeg_current_date (s : GeneratorState) (l : FlightLeg) :
    (applyLeg s l).current_date = s.current_date := rfl

@[simp] theorem applyLeg_future_legs (s : GeneratorState) (l : FlightLeg) :
    (applyLeg s l).future_legs = s.future_legs := rfl

@[simp] theorem applyLeg_preferred (s : GeneratorState) (l : FlightLeg) :
    (applyLeg s l).preferred_airports = s.preferred_airports := rfl

@[simp] theorem applyLeg_block (s : GeneratorState) (l : FlightLeg) :
    (applyLeg s l).long_haul_block_until = s.long_haul_block_until := rfl

@[simp] theorem applyLeg_airport (s : GeneratorState) (l : FlightLeg) :
    (applyLeg s l).current_airport = l.arrival_airport := rfl

@[simp] theorem applyLeg_time (s : GeneratorState) (l : FlightLeg) :
    (applyLeg s l).current_time = l.arrival_time := rfl

/-- `selectLeg` can change the state only in its preferred-airports set. -/
theorem selectLeg_state (rng : Nat → Rat) (s : GeneratorState) (cfg : ScheduleConfiguration)
    (haulType : HaulType) (routes : List Route) (b1 b2 : Bool) (ridx : Nat) :
    ∃ p, (selectLeg rng s cfg haulType routes b1 b2 ridx).2.1 =
      { s with preferred_airports := p } := by
  simp only [selectLeg]
  repeat' split
  all_goals exact ⟨_, rfl⟩

/-- The trip-relevant generator-state fields that one loop iteration never
touches. -/
def CorePres (s s' : GeneratorState) : Prop :=
  s'.generated_days = s.generated_days ∧
  s'.consecutive_days_away_from_base = s.consecutive_days_away_from_base ∧
  s'.current_date = s.current_date

theorem CorePres.refl (s : GeneratorState) : CorePres s s := ⟨rfl, rfl, rfl⟩

theorem CorePres.trans {a b c : GeneratorState} (h1 : CorePres a b) (h2 : CorePres b c) :
    CorePres a c :=
  ⟨h2.1.trans h1.1, h2.2.1.trans h1.2.1, h2.2.2.trans h1.2.2⟩

theorem corePres_applyLeg (s : GeneratorState) (l : FlightLeg) :
    CorePres s (applyLeg s l) := ⟨rfl, rfl, rfl⟩

theorem corePres_selectLeg (rng : Nat → Rat) (s : GeneratorState)
    (cfg : ScheduleConfiguration) (haulType : HaulType) (routes : List Route)
    (b1 b2 : Bool) (ridx : Nat) :
    CorePres s (selectLeg rng s cfg haulType routes b1 b2 ridx).2.1 := by
  obtain ⟨p, hp⟩ := selectLeg_state rng s cfg haulType routes b1 b2 ridx
  rw [hp]
  exact ⟨rfl, rfl, rfl⟩

/-- `planTrip` preserves the generated days, the away counter and the date. -/
theorem corePres_planTrip (rng : Nat → Rat) (s : GeneratorState)
    (cfg : ScheduleConfiguration) (haulType : HaulType) (routes : List Route) (ridx : Nat) :
    CorePres s (planTrip rng s cfg haulType routes ridx).2.1 := by
  simp only [planTrip]
  split
  · next s' r2 heq =>
    have := corePres_selectLeg rng s cfg haulType routes false false
      (selectDayStyle rng cfg ridx).2
    rw [heq] at this
    exact this
  · next firstLeg sA r2 heq =>
    have h1 : CorePres s sA := by
      have := corePres_selectLeg rng s cfg haulType routes false false
        (selectDayStyle rng cfg ridx).2
      rw [heq] at this
      exact this
    have h2 : CorePres s (applyLeg sA firstLeg) := h1.trans (corePres_applyLeg _ _)
    have hfinal : ∀ (legs2 : List FlightLeg) (s3 : GeneratorState) (r3 : Nat),
        CorePres s s3 →
        CorePres s ((if s3.current_airport = cfg.start_airport then
            (({ success := true, message := "Trip planned successfully", legs := legs2 } :
              TripResult), s3, r3)
          else
            match planReturnToBase s3 cfg routes (some haulType) with
            | some returnLeg =>
              ({ success := true, message := "Trip planned successfully",
                 legs := legs2 ++ [returnLeg] }, applyLeg s3 returnLeg, r3)
            | none =>
              ({ success := false, message := "Cannot return to base", legs := legs2 },
               s3, r3)) : TripResult × GeneratorState × Nat).2.1 := by
      intro legs2 s3 r3 h
      split
      · exact h
      · split
        · exact h.trans (corePres_applyLeg _ _)
        · exact h
    by_cases hml : (selectDayStyle rng cfg ridx).1 = false ∧ haulType ≠ HaulType.long ∧
        cfg.repetition_mode = false
    · rw [if_pos hml]
      rcases hsel : selectLeg rng (applyLeg sA firstLeg) cfg haulType routes false false r2
        with ⟨l2opt, s', r'⟩
      have hps : CorePres s s' := by
        have := corePres_selectLeg rng (applyLeg sA firstLeg) cfg haulType routes false false r2
        rw [hsel] at this
        exact h2.trans this
      cases l2opt
      · exact hfinal _ _ _ hps
      · exact hfinal _ _ _ (hps.trans (corePres_applyLeg _ _))
    · rw [if_neg hml]
      exact hfinal _ _ _ h2

/-- `planRepeatedTrip` preserves the generated days, the away counter and the
date. -/
theorem corePres_planRepeatedTrip (s : GeneratorState) (cfg : ScheduleConfiguration)
    (o r : FlightLeg) :
    CorePres s (planRepeatedTrip s cfg o r).2 := by
  simp only [planRepeatedTrip]
  repeat' split
  all_goals exact ⟨rfl, rfl, rfl⟩

/-- One loop iteration preserves the generated days, the away counter and the
date of the embedded generator state. -/
theorem corePres_dayStep (rng : Nat → Rat) (cfg : ScheduleConfiguration)
    (routes : List Route) (haulType : HaulType) (d0 : Int) (s : LoopSt) :
    CorePres s.gs (dayStep rng cfg routes haulType d0 s).gs := by
  have hfin : ∀ (s1 : LoopSt) (tr : TripResult), CorePres s.gs s1.gs →
      CorePres s.gs (dayStepFinish cfg haulType d0 s1 tr).gs := by
    intro s1 tr h
    simp only [dayStepFinish]
    repeat' split
    all_goals exact h
  simp only [dayStep]
  split
  · exact CorePres.refl _
  · split
    · next heq1 heq2 =>
      exact hfin _ _ ((corePres_planRepeatedTrip s.gs cfg _ _))
    · split
      · exact hfin _ _ (corePres_planTrip rng s.gs cfg haulType routes s.ridx)
      · exact hfin _ _ (corePres_planTrip rng s.gs cfg haulType routes s.ridx)

/-- The whole loop preserves the generated days, the away counter and the
date. -/
theorem corePres_dayLoop (rng : Nat → Rat) (cfg : ScheduleConfiguration)
    (routes : List Route) (haulType : HaulType) (d0 : Int) :
    ∀ (n : Nat) (s : LoopSt), CorePres s.gs (dayLoop rng cfg routes haulType d0 n s).gs
  | 0, s => CorePres.refl _
  | Nat.succ n, s => by
    simp only [dayLoop]
    split
    · exact CorePres.refl _
    · exact (corePres_dayStep rng cfg routes haulType d0 s).trans
        (corePres_dayLoop rng cfg routes haulType d0 n _)

/-- A successful fresh trip has at least one leg. -/
theorem planTrip_success_legs (rng : Nat → Rat) (s : GeneratorState)
    (cfg : ScheduleConfiguration) (haulType : HaulType) (routes : List Route) (ridx : Nat) :
    (planTrip rng s cfg haulType routes ridx).1.success = true →
    (planTrip rng s cfg haulType routes ridx).1.legs ≠ [] := by
  simp only [planTrip]
  repeat' split
  all_goals intro h
  all_goals simp_all

/-- A successful repeated trip has exactly two legs. -/
theorem planRepeatedTrip_success_legs (s : GeneratorState) (cfg : ScheduleConfiguration)
    (o r : FlightLeg) :
    (planRepeatedTrip s cfg o r).1.success = true →
    (planRepeatedTrip s cfg o r).1.legs ≠ [] := by
  simp only [planRepeatedTrip]
  repeat' split
  all_goals intro h
  all_goals simp_all

/-- When no leg of a list departs on a different day, the same-day filter
keeps the whole list. -/
theorem filter_day_all (legs : List FlightLeg) (d0 : Int)
    (h : (legs.filter (fun l => decide (dayOf l.departure_time ≠ d0))).isEmpty = true) :
    legs.filter (fun l => decide (dayOf l.departure_time = d0)) = legs := by
  rw [List.isEmpty_iff, List.filter_eq_nil_iff] at h
  apply List.filter_eq_self.2
  intro a ha
  have := h a ha
  simp only [decide_eq_true_eq] at this ⊢
  by_contra hne
  exact this hne

/-- The post-trip processing leaves a non-empty legs list or a non-empty notes
list, provided a successful trip always carries a leg. -/
theorem dayStepFinish_ne (cfg : ScheduleConfiguration) (haulType : HaulType)
    (d0 : Int) (s : LoopSt) (tr : TripResult)
    (hlegs : tr.success = true → tr.legs ≠ []) :
    (dayStepFinish cfg haulType d0 s tr).legs ≠ [] ∨
    (dayStepFinish cfg haulType d0 s tr).notes ≠ [] := by
  simp only [dayStepFinish]
  split
  · next hfail => right; simp
  · next hsucc =>
    rw [Bool.not_eq_false] at hsucc
    split
    · right; simp
    · next hfut =>
      have hcur : tr.legs.filter (fun l => decide (dayOf l.departure_time = d0)) = tr.legs := by
        apply filter_day_all
        revert hfut
        rcases (tr.legs.filter (fun l => decide (dayOf l.departure_time ≠ d0))).isEmpty with _ | _ <;>
          simp
      have hne : s.legs ++ tr.legs.filter (fun l => decide (dayOf l.departure_time = d0)) ≠ [] := by
        rw [hcur]
        simp [hlegs hsucc]
      left
      split <;> split <;> simp_all

/-- Any single loop iteration yields a non-empty legs or notes list. -/
theorem dayStep_ne (rng : Nat → Rat) (cfg : ScheduleConfiguration) (routes : List Route)
    (haulType : HaulType) (d0 : Int) (s : LoopSt) :
    (dayStep rng cfg routes haulType d0 s).legs ≠ [] ∨
    (dayStep rng cfg routes haulType d0 s).notes ≠ [] := by
  simp only [dayStep]
  split
  · right; simp
  · split
    · exact dayStepFinish_ne cfg haulType d0 _ _
        (planRepeatedTrip_success_legs s.gs cfg _ _)
    · split
      · exact dayStepFinish_ne cfg haulType d0 _ _
          (planTrip_success_legs rng s.gs cfg haulType routes s.ridx)
      · exact dayStepFinish_ne cfg haulType d0 _ _
          (planTrip_success_legs rng s.gs cfg haulType routes s.ridx)

/-- The loop preserves non-emptiness of legs-or-notes. -/
theorem dayLoop_ne_preserved (rng : Nat → Rat) (cfg : ScheduleConfiguration)
    (routes : List Route) (haulType : HaulType) (d0 : Int) :
    ∀ (n : Nat) (s : LoopSt), (s.legs ≠ [] ∨ s.notes ≠ []) →
      ((dayLoop rng cfg routes haulType d0 n s).legs ≠ [] ∨
       (dayLoop rng cfg routes haulType d0 n s).notes ≠ [])
  | 0, s, h => h
  | Nat.succ n, s, h => by
    simp only [dayLoop]
    split
    · exact h
    · exact dayLoop_ne_preserved rng cfg routes haulType d0 n _
        (dayStep_ne rng cfg routes haulType d0 s)

/-- Running the loop at least once from a live state yields non-empty legs or
notes. -/
theorem dayLoop_ne (rng : Nat → Rat) (cfg : ScheduleConfiguration) (routes : List Route)
    (haulType : HaulType) (d0 : Int) (n : Nat) (s : LoopSt) (hd : s.done = false) :
    ((dayLoop rng cfg routes haulType d0 (n + 1) s).legs ≠ [] ∨
     (dayLoop rng cfg routes haulType d0 (n + 1) s).notes ≠ []) := by
  simp only [dayLoop, hd]
  exact dayLoop_ne_preserved rng cfg routes haulType d0 n _
    (dayStep_ne rng cfg routes haulType d0 s)

/-- Shape facts about one scheduler-built day: the day index is echoed, the
emitted-days list and the date of the shared state are untouched, an
empty-legs day carries at least one note, the day's overnight location is the
end-of-day airport, and the away counter is reset to 0 exactly when that
airport is the base and incremented by 1 otherwise. -/
theorem generateDailySchedule_spec (rng : Nat → Rat) (day : Nat) (gs : GeneratorState)
    (cfg : ScheduleConfiguration) (routes : List Route) (ridx : Nat) :
    (generateDailySchedule rng day gs cfg routes ridx).1.day = day ∧
    (generateDailySchedule rng day gs cfg routes ridx).2.1.generated_days =
      gs.generated_days ∧
    (generateDailySchedule rng day gs cfg routes ridx).2.1.current_date = gs.current_date ∧
    ((generateDailySchedule rng day gs cfg routes ridx).1.legs = [] →
      (generateDailySchedule rng day gs cfg routes ridx).1.notes ≠ []) ∧
    (generateDailySchedule rng day gs cfg routes ridx).1.overnight_location =
      (generateDailySchedule rng day gs cfg routes ridx).2.1.current_airport ∧
    (generateDailySchedule rng day gs cfg routes ridx).2.1.consecutive_days_away_from_base =
      (if (generateDailySchedule rng day gs cfg routes ridx).1.overnight_location =
          cfg.start_airport then 0 else gs.consecutive_days_away_from_base + 1) := by
  have hcore : CorePres gs
      (dayLoop rng cfg routes (dayLoopInit rng ridx gs cfg).1 gs.current_date FUEL
        (dayLoopInit rng ridx gs cfg).2).gs :=
    corePres_dayLoop rng cfg routes (dayLoopInit rng ridx gs cfg).1 gs.current_date FUEL
      (dayLoopInit rng ridx gs cfg).2
  have hne := dayLoop_ne rng cfg routes (dayLoopInit rng ridx gs cfg).1 gs.current_date 1999
    (dayLoopInit rng ridx gs cfg).2 rfl
  simp only [generateDailySchedule]
  split
  · next hov =>
    refine ⟨rfl, hcore.1, hcore.2.2, fun _ => by simp, rfl, ?_⟩
    simp only [hcore.2.1, if_neg hov]
  · next hov =>
    have hov' : (dayLoop rng cfg routes (dayLoopInit rng ridx gs cfg).1 gs.current_date FUEL
        (dayLoopInit rng ridx gs cfg).2).gs.current_airport = cfg.start_airport :=
      Decidable.not_not.1 hov
    refine ⟨rfl, hcore.1, hcore.2.2, ?_, rfl, ?_⟩
    · intro hl
      rcases hne with h | h
      · exact absurd hl h
      · exact h
    · simp only [hcore.2.1]
      rw [if_pos hov']

/-- The overnight-return handler never touches the emitted days, the overflow
buffer or the date, and resets the away counter exactly when it is at least 2
and a return flight is found. -/
theorem handleOvernightReturn_spec (s : GeneratorState) (cfg : ScheduleConfiguration)
    (routes : List Route) :
    (handleOvernightReturn s cfg routes).generated_days = s.generated_days ∧
    (handleOvernightReturn s cfg routes).future_legs = s.future_legs ∧
    (handleOvernightReturn s cfg routes).current_date = s.current_date ∧
    (handleOvernightReturn s cfg routes).consecutive_days_away_from_base =
      (if 2 ≤ s.consecutive_days_away_from_base ∧
          (planReturnToBase s cfg routes none).isSome = true then 0
       else s.consecutive_days_away_from_base) := by
  simp only [handleOvernightReturn]
  split
  · next h2 =>
    split
    · next leg hleg =>
      exact ⟨rfl, rfl, rfl, by rw [if_pos ⟨h2, by rw [hleg]; rfl⟩]⟩
    · next hleg =>
      refine ⟨rfl, rfl, rfl, ?_⟩
      rw [if_neg ?_]
      rintro ⟨-, hsome⟩
      rw [hleg] at hsome
      exact Bool.false_ne_true hsome
  · next h2 =>
    refine ⟨rfl, rfl, rfl, ?_⟩
    rw [if_neg ?_]
    rintro ⟨h, -⟩
    exact h2 h

/-- When the overflow buffer is non-empty, `processFutureLegs` appends exactly
one day carrying the echoed index and a note, without touching the away
counter or the date. -/
theorem processFutureLegs_spec (s : GeneratorState) (day : Nat)
    (h : s.future_legs.isEmpty = false) :
    ∃ d : DaySchedule,
      (processFutureLegs s day).generated_days = s.generated_days ++ [d] ∧
      d.day = day ∧ d.notes ≠ [] ∧
      (processFutureLegs s day).consecutive_days_away_from_base =
        s.consecutive_days_away_from_base ∧
      (processFutureLegs s day).current_date = s.current_date := by
  simp only [processFutureLegs]
  rw [if_neg (by rw [h]; exact Bool.false_ne_true)]
  split <;> exact ⟨_, rfl, rfl, by simp, rfl, rfl⟩

/-- Every iteration of the generator's day loop appends exactly one day, which
echoes the day index and carries a note when it has no legs. -/
theorem oneGenDayCore_spec (rng : Nat → Rat) (cfg : ScheduleConfiguration)
    (routes : List Route) (day : Nat) (s1 : GeneratorState) (ridx : Nat) :
    ∃ d : DaySchedule,
      (oneGenDayCore rng cfg routes day s1 ridx).1.generated_days =
        s1.generated_days ++ [d] ∧
      d.day = day ∧ (d.legs = [] → d.notes ≠ []) := by
  simp only [oneGenDayCore]
  split
  · next hfut =>
    obtain ⟨d, hd1, hd2, hd3, -, -⟩ := processFutureLegs_spec s1 day hfut
    exact ⟨d, hd1, hd2, fun _ => hd3⟩
  · rcases hg : generateDailySchedule rng day s1 cfg routes ridx with ⟨d, gs', r'⟩
    have hspec := generateDailySchedule_spec rng day s1 cfg routes ridx
    rw [hg] at hspec
    refine ⟨d, ?_, hspec.1, hspec.2.2.2.1⟩
    show gs'.generated_days ++ [d] = _
    rw [hspec.2.1]

theorem oneGenDay_spec (rng : Nat → Rat) (cfg : ScheduleConfiguration)
    (routes : List Route) (day : Nat) (s : GeneratorState) (ridx : Nat) :
    ∃ d : DaySchedule,
      (oneGenDay rng cfg routes day s ridx).1.generated_days = s.generated_days ++ [d] ∧
      d.day = day ∧ (d.legs = [] → d.notes ≠ []) := by
  simp only [oneGenDay]
  have hdays1 : (if s.current_airport ≠ cfg.start_airport then
      handleOvernightReturn s cfg routes else s).generated_days = s.generated_days := by
    split
    · exact (handleOvernightReturn_spec s cfg routes).1
    · rfl
  obtain ⟨d, hd1, hd2, hd3⟩ := oneGenDayCore_spec rng cfg routes day
    (if s.current_airport ≠ cfg.start_airport then handleOvernightReturn s cfg routes else s)
    ridx
  rcases hcore : oneGenDayCore rng cfg routes day
    (if s.current_airport ≠ cfg.start_airport then handleOvernightReturn s cfg routes else s)
    ridx with ⟨s2, ridx'⟩
  rw [hcore] at hd1
  refine ⟨d, ?_, hd2, hd3⟩
  show s2.generated_days = _
  rw [show s2.generated_days = (s2, ridx').1.generated_days from rfl, hd1, hdays1]

/-- The generator's day loop over a list of day indices appends one day per
index, in order. -/
theorem genDays_spec (rng : Nat → Rat) (cfg : ScheduleConfiguration) (routes : List Route) :
    ∀ (ds : List Nat) (s : GeneratorState) (ridx : Nat),
    ∃ extra : List DaySchedule,
      (genDays rng cfg routes ds (s, ridx)).1.generated_days = s.generated_days ++ extra ∧
      extra.map DaySchedule.day = ds ∧
      ∀ d ∈ extra, d.legs = [] → d.notes ≠ []
  | [], s, ridx => ⟨[], by simp [genDays], rfl, by simp⟩
  | day :: ds, s, ridx => by
    simp only [genDays]
    rcases hone : oneGenDay rng cfg routes day s ridx with ⟨s', ridx'⟩
    obtain ⟨d, hd1, hd2, hd3⟩ := oneGenDay_spec rng cfg routes day s ridx
    rw [hone] at hd1
    obtain ⟨extra, he1, he2, he3⟩ := genDays_spec rng cfg routes ds s' ridx'
    refine ⟨d :: extra, ?_, ?_, ?_⟩
    · rw [he1, hd1]
      simp
    · simp [hd2, he2]
    · intro x hx
      rcases List.mem_cons.1 hx with rfl | hx'
      · exact hd3
      · exact he3 x hx'

/-- A planned forced-return day always carries its marker note. -/
theorem planForcedReturn_notes (s : GeneratorState) (cfg : ScheduleConfiguration)
    (routes : List Route) (n : Nat) (h : Option HaulType) (d : DaySchedule)
    (hd : planForcedReturn s cfg routes n h = some d) : d.notes ≠ [] := by
  revert hd
  simp only [planForcedReturn]
  repeat' split
  all_goals intro hd
  all_goals first
    | (obtain rfl : _ = d := Option.some.inj hd; simp)
    | exact absurd hd (by simp)

/-- The post-loop forced return only appends days with notes. -/
theorem finalForcedReturn_days (s : GeneratorState) (cfg : ScheduleConfiguration)
    (routes : List Route) :
    ∃ t : List DaySchedule,
      (finalForcedReturn s cfg routes).generated_days = s.generated_days ++ t ∧
      ∀ d ∈ t, d.notes ≠ [] := by
  simp only [finalForcedReturn]
  split
  · split
    · next d hd =>
      refine ⟨[d], rfl, ?_⟩
      intro x hx
      rcases List.mem_singleton.1 hx with rfl
      exact planForcedReturn_notes s cfg routes _ none x hd
    · exact ⟨[], by simp, by simp⟩
  · exact ⟨[], by simp, by simp⟩

/-- The post-loop overflow drain only appends days with notes. -/
theorem finalFutureDrain_days (s : GeneratorState) :
    ∃ t : List DaySchedule,
      (finalFutureDrain s).generated_days = s.generated_days ++ t ∧
      ∀ d ∈ t, d.notes ≠ [] := by
  simp only [finalFutureDrain]
  split
  · next hfut =>
    obtain ⟨d, hd1, -, hd3, -, -⟩ := processFutureLegs_spec s (s.generated_days.length + 1) hfut
    refine ⟨[d], hd1, ?_⟩
    intro x hx
    rcases List.mem_singleton.1 hx with rfl
    exact hd3
  · exact ⟨[], by simp, by simp⟩

/-- The final state of a generation run: the emitted days start with one day
per index `1..days`, in order, and every day with an empty legs list carries a
note. -/
theorem generateScheduleState_days (rng : Nat → Rat) (cfg : ScheduleConfiguration)
    (routes : List Route) (startDay : Int) :
    ∃ tail : List DaySchedule,
      ((generateScheduleState rng cfg routes startDay).1.generated_days.map DaySchedule.day =
        List.range' 1 cfg.days ++ tail.map DaySchedule.day) ∧
      ∀ d ∈ (generateScheduleState rng cfg routes startDay).1.generated_days,
        d.legs = [] → d.notes ≠ [] := by
  simp only [generateScheduleState]
  obtain ⟨extra, he1, he2, he3⟩ := genDays_spec rng cfg routes (List.range' 1 cfg.days)
    (initializeState cfg startDay) 0
  rcases hgd : genDays rng cfg routes (List.range' 1 cfg.days)
    (initializeState cfg startDay, 0) with ⟨s1, r1⟩
  rw [hgd] at he1
  have he1' : s1.generated_days = extra := he1
  obtain ⟨t2, ht2, ht2n⟩ := finalForcedReturn_days s1 cfg routes
  obtain ⟨t3, ht3, ht3n⟩ := finalFutureDrain_days (finalForcedReturn s1 cfg routes)
  have main : ∃ tail : List DaySchedule,
      ((finalFutureDrain (finalForcedReturn s1 cfg routes)).generated_days.map
        DaySchedule.day = List.range' 1 cfg.days ++ tail.map DaySchedule.day) ∧
      ∀ d ∈ (finalFutureDrain (finalForcedReturn s1 cfg routes)).generated_days,
        d.legs = [] → d.notes ≠ [] := by
    refine ⟨t2 ++ t3, ?_, ?_⟩
    · rw [ht3, ht2, he1']
      simp [List.map_append, List.append_assoc, he2]
    · intro d hd
      rw [ht3, ht2, he1'] at hd
      rcases List.mem_append.1 hd with hd' | hd'
      · rcases List.mem_append.1 hd' with hd'' | hd''
        · exact he3 d hd''
        · exact fun _ => ht2n d hd''
      · exact fun _ => ht3n d hd'
  exact main

/-! ## Claim C1: day count and forward progress -/

/-- C1 (amended): for a valid configuration and a non-empty route list whose
route durations are all non-negative, the generated schedule has at least
`config.days` days; the day indices `1..config.days`
each contribute exactly one day, in order (further recovery days may follow),
and a day with an empty legs list always carries explanatory notes — the
multi-day generation is never aborted partway.  The non-negative-duration
hypothesis is required: `validateConfiguration` checks neither
`repetition_mode` nor route durations, and without it the day loop can run
forever (see the C1 counterexample), so the program never returns a schedule
at all. -/
theorem claim_C1_amended (rng : Nat → Rat) (cfg : ScheduleConfiguration)
    (routes : List Route) (startDay : Int)
    (hroutes : routes ≠ []) (hvalid : validateConfiguration cfg = true)
    (_hdur : ∀ r ∈ routes, 0 ≤ r.duration_min) :
    cfg.days ≤ (generateSchedule rng cfg routes startDay).days.length ∧
    (∃ tail : List Nat, (generateSchedule rng cfg routes startDay).days.map DaySchedule.day =
      List.range' 1 cfg.days ++ tail) ∧
    ∀ d ∈ (generateSchedule rng cfg routes startDay).days, d.legs = [] → d.notes ≠ [] := by
  obtain ⟨tail, hmap, hnotes⟩ := generateScheduleState_days rng cfg routes startDay
  have hdays : (generateSchedule rng cfg routes startDay).days =
      (generateScheduleState rng cfg routes startDay).1.generated_days := rfl
  refine ⟨?_, ⟨tail.map DaySchedule.day, by rw [hdays, hmap]⟩, by rw [hdays]; exact hnotes⟩
  have := congrArg List.length hmap
  simp only [List.length_map, List.length_append, List.length_range'] at this
  rw [hdays, this]
  omega

/-- Witness for the amended C1 at the baseline configuration and the LHR/CDG
round trip. -/
theorem claim_C1_amended_witness :
    ([routeLHRCDG, routeCDGLHR] ≠ ([] : List Route) ∧
      validateConfiguration cfgBase = true ∧
      ∀ r ∈ [routeLHRCDG, routeCDGLHR], 0 ≤ r.duration_min) ∧
    (cfgBase.days ≤
      (generateSchedule rngZero cfgBase [routeLHRCDG, routeCDGLHR] 0).days.length ∧
    (∃ tail : List Nat,
      (generateSchedule rngZero cfgBase [routeLHRCDG, routeCDGLHR] 0).days.map
        DaySchedule.day = List.range' 1 cfgBase.days ++ tail) ∧
    ∀ d ∈ (generateSchedule rngZero cfgBase [routeLHRCDG, routeCDGLHR] 0).days,
      d.legs = [] → d.notes ≠ []) :=
  ⟨⟨by simp, by decide, by decide⟩,
    claim_C1_amended rngZero cfgBase [routeLHRCDG, routeCDGLHR] 0
      (by simp) (by decide) (by decide)⟩

end FlightSched


namespace FlightSched

/-! ## Claim C2: the consecutive-days-away counter -/

/-- Generator state at the start of the C2 run (`initializeState cfgBase 0`). -/
def gs0C2 : GeneratorState :=
  { current_airport := "LHR", current_date := 0, current_time := 360,
    visited_routes := [], visited_airports := [("LHR", 1)],
    long_haul_block_until := none, generated_days := [],
    consecutive_days_away_from_base := 0, future_legs := [], preferred_airports := [] }

/-- The first (and only) leg flown in the C2 run: LHR to CDG at 06:30. -/
def leg1C2 : FlightLeg :=
  { departure_airport := "LHR", arrival_airport := "CDG", departure_time := 390,
    arrival_time := 470, haul_type := .short, duration_min := 80, route_id := 1,
    departure_city := "London", departure_country := "United Kingdom",
    arrival_city := "Paris", arrival_country := "France", airline_iata := "BA",
    airline_name := "British Airways", distance_km := 350 }

/-- State after flying `leg1C2`: stranded at CDG. -/
def gsAC2 : GeneratorState :=
  { current_airport := "CDG", current_date := 0, current_time := 470,
    visited_routes := [1], visited_airports := [("LHR", 1), ("CDG", 1)],
    long_haul_block_until := none, generated_days := [],
    consecutive_days_away_from_base := 0, future_legs := [], preferred_airports := [] }

/-- Initial loop state of day 1 of the C2 run. -/
def initC2 : LoopSt :=
  { gs := gs0C2, legs := [], notes := [], overnight := "LHR",
    repOut := none, repRet := none, ridx := 0, done := false }

/-- Loop state after the single iteration of day 1 of the C2 run. -/
def stepC2 : LoopSt :=
  { gs := gsAC2, legs := [], notes := ["Cannot return to base"], overnight := "LHR",
    repOut := none, repRet := none, ridx := 2, done := true }

/-- Day 1 of the C2 run: no legs kept, stranded at CDG. -/
def day1C2 : DaySchedule :=
  { day := 1, date := 0, legs := [], overnight_location := "CDG",
    notes := ["Cannot return to base", "Overnight layover required"] }

/-- Day 2 of the C2 run. -/
def day2C2 : DaySchedule :=
  { day := 2, date := 1, legs := [], overnight_location := "CDG",
    notes := ["Cannot plan more trips - not at base (at CDG)",
              "Overnight layover required", "Will force return to base next morning"] }

/-- Day 3 of the C2 run. -/
def day3C2 : DaySchedule :=
  { day := 3, date := 2, legs := [], overnight_location := "CDG",
    notes := ["Cannot plan more trips - not at base (at CDG)",
              "Overnight layover required", "Will force return to base next morning"] }

/-- Generator state delivered by day 1 of the C2 run (counter 1). -/
def gsBC2 : GeneratorState :=
  { current_airport := "CDG", current_date := 0, current_time := 470,
    visited_routes := [1], visited_airports := [("LHR", 1), ("CDG", 1)],
    long_haul_block_until := none, generated_days := [],
    consecutive_days_away_from_base := 1, future_legs := [], preferred_airports := [] }

/-- Generator state after the full day-1 iteration of the C2 run. -/
def gs1C2 : GeneratorState :=
  { current_airport := "CDG", current_date := 1, current_time := 1800,
    visited_routes := [1], visited_airports := [("LHR", 1), ("CDG", 1)],
    long_haul_block_until := none, generated_days := [day1C2],
    consecutive_days_away_from_base := 1, future_legs := [], preferred_airports := [] }

/-- Generator state after the day-2 iteration of the C2 run (counter 2). -/
def gs2C2 : GeneratorState :=
  { current_airport := "CDG", current_date := 2, current_time := 3240,
    visited_routes := [1], visited_airports := [("LHR", 1), ("CDG", 1)],
    long_haul_block_until := none, generated_days := [day1C2, day2C2],
    consecutive_days_away_from_base := 2, future_legs := [], preferred_airports := [] }

/-- Generator state after the day-3 iteration of the C2 run (counter 3). -/
def gs3C2 : GeneratorState :=
  { current_airport := "CDG", current_date := 3, current_time := 4680,
    visited_routes := [1], visited_airports := [("LHR", 1), ("CDG", 1)],
    long_haul_block_until := none, generated_days := [day1C2, day2C2, day3C2],
    consecutive_days_away_from_base := 3, future_legs := [], preferred_airports := [] }

/-- A stopped loop state is a fixed point of the fueled loop. -/
theorem dayLoop_done (rng : Nat → Rat) (cfg : ScheduleConfiguration)
    (routes : List Route) (haulType : HaulType) (d0 : Int) :
    ∀ (n : Nat) (s : LoopSt), s.done = true →
      dayLoop rng cfg routes haulType d0 n s = s
  | 0, s, _ => rfl
  | Nat.succ _, s, h => by simp [dayLoop, h]

/-- A live loop state takes one step of the fueled loop. -/
theorem dayLoop_step (rng : Nat → Rat) (cfg : ScheduleConfiguration)
    (routes : List Route) (haulType : HaulType) (d0 : Int) (n : Nat) (s : LoopSt)
    (h : s.done = false) :
    dayLoop rng cfg routes haulType d0 (n + 1) s =
      dayLoop rng cfg routes haulType d0 n (dayStep rng cfg routes haulType d0 s) := by
  simp [dayLoop, h]

/-- The one leg selection of the C2 run, evaluated. -/
theorem selectLeg_C2 :
    selectLeg rngZero gs0C2 cfgBase HaulType.short [routeLHRCDG] false false 1 =
      (some leg1C2, gs0C2, 2) := by
  simp only [selectLeg, routesFromAirport, airlineMatches, applyBiasing, biasRouteWeight,
    visitCountOf, getContinent, weightedRandomSelection, cumSelect, isWithinOperatingHours,
    timeOfDay, startValue, endValue, buildFlightLeg, calculateArrivalTime, classifyRoute,
    rngZero, cfgBase, routeLHRCDG, gs0C2, leg1C2, List.filter, List.map, List.isEmpty,
    List.lookup, List.contains, List.find?, List.any, List.sum, List.getD, List.elem]
  norm_num
  try simp
  try norm_num

/-- C2 counterexample: on the baseline configuration with only an outbound
LHR-to-CDG route (no route back), the away counter reaches 3: the generator is
stranded at CDG, `handleOvernightReturn` finds no return flight, and the
counter keeps incrementing past 2. -/
theorem claim_C2_counterexample :
    (generateScheduleState rngZero cfgBase [routeLHRCDG] 0).1.consecutive_days_away_from_base
      = 3 := by
  have h_style : selectDayStyle rngZero cfgBase 0 = (true, 1) := by decide
  have h_trip1 : planTrip rngZero gs0C2 cfgBase HaulType.short [routeLHRCDG] 0 =
      ({ success := false, message := "Cannot return to base", legs := [leg1C2] },
       gsAC2, 2) := by
    simp only [planTrip, h_style, selectLeg_C2]
    decide
  have hrep : cfgBase.repetition_mode = false := rfl
  have h_step1 : dayStep rngZero cfgBase [routeLHRCDG] HaulType.short 0 initC2 = stepC2 := by
    simp only [dayStep, initC2, hrep, h_trip1]
    decide
  have h_loop : dayLoop rngZero cfgBase [routeLHRCDG] HaulType.short 0 FUEL initC2 =
      stepC2 := by
    have hf : FUEL = 1999 + 1 := rfl
    rw [hf, dayLoop_step rngZero cfgBase [routeLHRCDG] HaulType.short 0 1999 initC2 rfl,
      h_step1]
    exact dayLoop_done rngZero cfgBase [routeLHRCDG] HaulType.short 0 1999 stepC2 rfl
  have h_init2 : dayLoopInit rngZero 0 gs0C2 cfgBase = (HaulType.short, initC2) := by decide
  have hdate : gs0C2.current_date = 0 := rfl
  have h_gd1 : generateDailySchedule rngZero 1 gs0C2 cfgBase [routeLHRCDG] 0 =
      (day1C2, gsBC2, 2) := by
    simp only [generateDailySchedule, h_init2, hdate, h_loop]
    decide
  have hgs0a : gs0C2.current_airport = "LHR" := rfl
  have hcfgs : cfgBase.start_airport = "LHR" := rfl
  have h1 : oneGenDay rngZero cfgBase [routeLHRCDG] 1 gs0C2 0 = (gs1C2, 2) := by
    simp only [oneGenDay, oneGenDayCore, ne_eq, hgs0a, hcfgs, not_true, if_true, if_false,
      ite_self, h_gd1]
    decide
  have h2 : oneGenDay rngZero cfgBase [routeLHRCDG] 2 gs1C2 2 = (gs2C2, 2) := by decide
  have h3 : oneGenDay rngZero cfgBase [routeLHRCDG] 3 gs2C2 2 = (gs3C2, 2) := by decide
  have h_init0 : initializeState cfgBase 0 = gs0C2 := by decide
  have hgen : genDays rngZero cfgBase [routeLHRCDG] (List.range' 1 cfgBase.days)
      (initializeState cfgBase 0, 0) = (gs3C2, 2) := by
    rw [h_init0,
      show genDays rngZero cfgBase [routeLHRCDG] (List.range' 1 cfgBase.days) (gs0C2, 0) =
        genDays rngZero cfgBase [routeLHRCDG] [2, 3]
          (oneGenDay rngZero cfgBase [routeLHRCDG] 1 gs0C2 0) from rfl,
      h1,
      show genDays rngZero cfgBase [routeLHRCDG] [2, 3] (gs1C2, 2) =
        genDays rngZero cfgBase [routeLHRCDG] [3]
          (oneGenDay rngZero cfgBase [routeLHRCDG] 2 gs1C2 2) from rfl,
      h2,
      show genDays rngZero cfgBase [routeLHRCDG] [3] (gs2C2, 2) =
        genDays rngZero cfgBase [routeLHRCDG] []
          (oneGenDay rngZero cfgBase [routeLHRCDG] 3 gs2C2 2) from rfl,
      h3]
    rfl
  rw [show generateScheduleState rngZero cfgBase [routeLHRCDG] 0 =
      (finalFutureDrain (finalForcedReturn gs3C2 cfgBase [routeLHRCDG]), 2) from by
    simp only [generateScheduleState, hgen]]
  decide

/-- C2 amended: the end-of-day update does reset the counter to 0 exactly when
the day ends at base and increments it otherwise, and at two or more nights
away `handleOvernightReturn` attempts a forced return before the next day; but
the forced return only resets the counter when `planReturnToBase` actually
finds a flight — when it fails the counter is left unchanged and keeps
growing, so it can reach 3 (see the counterexample). -/
theorem claim_C2_amended (rng : Nat → Rat) (day : Nat) (gs : GeneratorState)
    (cfg : ScheduleConfiguration) (routes : List Route) (ridx : Nat)
    (s : GeneratorState) :
    ((generateDailySchedule rng day gs cfg routes ridx).2.1.consecutive_days_away_from_base =
      if (generateDailySchedule rng day gs cfg routes ridx).1.overnight_location =
          cfg.start_airport then 0
      else gs.consecutive_days_away_from_base + 1) ∧
    ((handleOvernightReturn s cfg routes).consecutive_days_away_from_base =
      if 2 ≤ s.consecutive_days_away_from_base ∧
          (planReturnToBase s cfg routes none).isSome = true then 0
      else s.consecutive_days_away_from_base) :=
  ⟨by
    have h := (generateDailySchedule_spec rng day gs cfg routes ridx).2.2.2.2.2
    exact h,
   (handleOvernightReturn_spec s cfg routes).2.2.2⟩

end FlightSched

namespace FlightSched

/-! ## Claim C10: inverted operating-hours window -/

/-- An inverted window rejects every instant. -/
theorem window_inverted_false (cfg : ScheduleConfiguration)
    (h : endValue cfg.operating_hours < startValue cfg.operating_hours) :
    ∀ t : Int, isWithinOperatingHours t cfg.operating_hours = false := by
  intro t
  simp only [isWithinOperatingHours, decide_eq_false_iff_not, not_and, not_le]
  intro h1
  omega

/-- Under an inverted window no leg is ever selected and the state is
untouched. -/
theorem selectLeg_window_none (cfg : ScheduleConfiguration)
    (hwin : ∀ t : Int, isWithinOperatingHours t cfg.operating_hours = false) :
    ∀ (rng : Nat → Rat) (s : GeneratorState) (haulType : HaulType) (routes : List Route)
      (isReturnLeg isFirstLegOfDay : Bool) (ridx : Nat),
      selectLeg rng s cfg haulType routes isReturnLeg isFirstLegOfDay ridx =
        (none, s, ridx) := by
  intro rng s haulType routes isReturnLeg isFirstLegOfDay ridx
  simp only [selectLeg, hwin]
  simp

/-- Under an inverted window no return flight is ever found. -/
theorem findEarliest_window_none (cfg : ScheduleConfiguration)
    (hwin : ∀ t : Int, isWithinOperatingHours t cfg.operating_hours = false) :
    ∀ (t : Int) (a b : String) (rs : List Route),
      findEarliestReturnFlight t a b rs cfg = none := by
  intro t a b rs
  simp only [findEarliestReturnFlight, hwin]
  simp

/-- Under an inverted window `planReturnToBase` always fails. -/
theorem planReturnToBase_window_none (cfg : ScheduleConfiguration)
    (hwin : ∀ t : Int, isWithinOperatingHours t cfg.operating_hours = false) :
    ∀ (s : GeneratorState) (routes : List Route) (haulType : Option HaulType),
      planReturnToBase s cfg routes haulType = none := by
  intro s routes haulType
  simp only [planReturnToBase, findEarliest_window_none cfg hwin]
  simp

/-- Under an inverted window a repeated trip fails immediately, leaving the
state unchanged. -/
theorem planRepeatedTrip_window (cfg : ScheduleConfiguration)
    (hwin : ∀ t : Int, isWithinOperatingHours t cfg.operating_hours = false) :
    ∀ (s : GeneratorState) (outboundLeg returnLeg : FlightLeg),
      planRepeatedTrip s cfg outboundLeg returnLeg =
        ({ success := false,
           message := "Cannot schedule more flights today - outside operating hours",
           legs := [] }, s) := by
  intro s outboundLeg returnLeg
  simp only [planRepeatedTrip, hwin]
  simp

/-- Under an inverted window a fresh trip fails at the first leg, leaving the
state unchanged. -/
theorem planTrip_window (cfg : ScheduleConfiguration)
    (hwin : ∀ t : Int, isWithinOperatingHours t cfg.operating_hours = false) :
    ∀ (rng : Nat → Rat) (s : GeneratorState) (haulType : HaulType)
      (routes : List Route) (ridx : Nat),
      planTrip rng s cfg haulType routes ridx =
        ({ success := false, message := "No suitable routes available for first leg",
           legs := [] }, s, (selectDayStyle rng cfg ridx).2) := by
  intro rng s haulType routes ridx
  simp only [planTrip, selectLeg_window_none cfg hwin]

/-- Under an inverted window every loop iteration stops the loop and leaves
the day legs and the generator state untouched. -/
theorem dayStep_window (cfg : ScheduleConfiguration)
    (hwin : ∀ t : Int, isWithinOperatingHours t cfg.operating_hours = false)
    (rng : Nat → Rat) (routes : List Route) (haulType : HaulType) (d0 : Int)
    (s : LoopSt) :
    (dayStep rng cfg routes haulType d0 s).done = true ∧
    (dayStep rng cfg routes haulType d0 s).legs = s.legs ∧
    (dayStep rng cfg routes haulType d0 s).gs = s.gs := by
  unfold dayStep
  split
  · exact ⟨rfl, rfl, rfl⟩
  · split
    · rw [planRepeatedTrip_window cfg hwin]
      simp [dayStepFinish]
    · rw [planTrip_window cfg hwin]
      simp [dayStepFinish]

/-- Under an inverted window the fueled loop changes neither the day legs nor
the generator state. -/
theorem dayLoop_window (cfg : ScheduleConfiguration)
    (hwin : ∀ t : Int, isWithinOperatingHours t cfg.operating_hours = false)
    (rng : Nat → Rat) (routes : List Route) (haulType : HaulType) (d0 : Int) :
    ∀ (n : Nat) (s : LoopSt),
      (dayLoop rng cfg routes haulType d0 n s).legs = s.legs ∧
      (dayLoop rng cfg routes haulType d0 n s).gs = s.gs
  | 0, s => ⟨rfl, rfl⟩
  | Nat.succ n, s => by
    rw [dayLoop]
    split
    · exact ⟨rfl, rfl⟩
    · obtain ⟨h1, h2⟩ := dayLoop_window cfg hwin rng routes haulType d0 n
        (dayStep rng cfg routes haulType d0 s)
      obtain ⟨-, h3, h4⟩ := dayStep_window cfg hwin rng routes haulType d0 s
      exact ⟨h1.trans h3, h2.trans h4⟩

/-- Under an inverted window every scheduled day comes out empty and the state
is only touched in the away counter. -/
theorem generateDailySchedule_window (cfg : ScheduleConfiguration)
    (hwin : ∀ t : Int, isWithinOperatingHours t cfg.operating_hours = false)
    (rng : Nat → Rat) (day : Nat) (gs : GeneratorState) (routes : List Route)
    (ridx : Nat) :
    (generateDailySchedule rng day gs cfg routes ridx).1.legs = [] ∧
    (generateDailySchedule rng day gs cfg routes ridx).1.overnight_location =
      gs.current_airport ∧
    ∃ c : Nat, (generateDailySchedule rng day gs cfg routes ridx).2.1 =
      { gs with consecutive_days_away_from_base := c } := by
  obtain ⟨hl, hg⟩ := dayLoop_window cfg hwin rng routes (dayLoopInit rng ridx gs cfg).1
    gs.current_date FUEL (dayLoopInit rng ridx gs cfg).2
  have hinitgs : (dayLoopInit rng ridx gs cfg).2.gs = gs := rfl
  have hinitlegs : (dayLoopInit rng ridx gs cfg).2.legs = [] := rfl
  rw [hinitgs] at hg
  rw [hinitlegs] at hl
  simp only [generateDailySchedule]
  split
  · exact ⟨hl, by rw [hg], _, by rw [hg]⟩
  · exact ⟨hl, by rw [hg], _, by rw [hg]⟩

end FlightSched

namespace FlightSched

/-- Run invariant of an inverted-window generation: the generator never leaves
the base, never buffers overflow legs, and every emitted day is empty. -/
def windowInv (cfg : ScheduleConfiguration) (s : GeneratorState) : Prop :=
  s.current_airport = cfg.start_airport ∧ s.future_legs = [] ∧
  ∀ d ∈ s.generated_days, d.legs = []

/-- One generator-day iteration preserves the inverted-window invariant. -/
theorem oneGenDay_window (cfg : ScheduleConfiguration)
    (hwin : ∀ t : Int, isWithinOperatingHours t cfg.operating_hours = false)
    (rng : Nat → Rat) (routes : List Route) (day : Nat) (s : GeneratorState)
    (ridx : Nat) (hinv : windowInv cfg s) :
    windowInv cfg (oneGenDay rng cfg routes day s ridx).1 := by
  obtain ⟨ha, hf, hd⟩ := hinv
  obtain ⟨hl, hov, c, hgs⟩ := generateDailySchedule_window cfg hwin rng day s routes ridx
  simp only [oneGenDay, oneGenDayCore]
  rw [if_neg (show ¬(s.current_airport ≠ cfg.start_airport) from fun hne => hne ha),
    if_neg (show ¬(s.future_legs.isEmpty = false) by rw [hf]; decide)]
  refine ⟨?_, ?_, ?_⟩
  · show (generateDailySchedule rng day s cfg routes ridx).1.overnight_location = _
    rw [hov, ha]
  · show (generateDailySchedule rng day s cfg routes ridx).2.1.future_legs = []
    rw [hgs, hf]
  · show ∀ d' ∈ (generateDailySchedule rng day s cfg routes ridx).2.1.generated_days ++
      [(generateDailySchedule rng day s cfg routes ridx).1], d'.legs = []
    rw [hgs]
    intro d' hd'
    rcases List.mem_append.1 hd' with h | h
    · exact hd d' h
    · rcases List.mem_singleton.1 h with rfl
      exact hl

/-- The generator's day loop preserves the inverted-window invariant. -/
theorem genDays_window (cfg : ScheduleConfiguration)
    (hwin : ∀ t : Int, isWithinOperatingHours t cfg.operating_hours = false)
    (rng : Nat → Rat) (routes : List Route) :
    ∀ (ds : List Nat) (s : GeneratorState) (ridx : Nat), windowInv cfg s →
      windowInv cfg (genDays rng cfg routes ds (s, ridx)).1
  | [], _, _, hinv => hinv
  | day :: ds, s, ridx, hinv => by
    simp only [genDays]
    rcases hone : oneGenDay rng cfg routes day s ridx with ⟨s2, r2⟩
    have h2 := oneGenDay_window cfg hwin rng routes day s ridx hinv
    rw [hone] at h2
    exact genDays_window cfg hwin rng routes ds s2 r2 h2

/-- C10: when the configured window has an end time-of-day strictly earlier
than its start time-of-day, `isWithinOperatingHours` rejects every instant,
`selectLeg` never returns a leg (and leaves the state untouched), and every
day of the generated schedule has an empty legs list. -/
theorem claim_C10_inverted_window (cfg : ScheduleConfiguration)
    (h : endValue cfg.operating_hours < startValue cfg.operating_hours) :
    (∀ t : Int, isWithinOperatingHours t cfg.operating_hours = false) ∧
    (∀ (rng : Nat → Rat) (s : GeneratorState) (haulType : HaulType)
       (routes : List Route) (isReturnLeg isFirstLegOfDay : Bool) (ridx : Nat),
       selectLeg rng s cfg haulType routes isReturnLeg isFirstLegOfDay ridx =
         (none, s, ridx)) ∧
    (∀ (rng : Nat → Rat) (routes : List Route) (startDay : Int),
       ∀ d ∈ (generateSchedule rng cfg routes startDay).days, d.legs = []) := by
  have hwin := window_inverted_false cfg h
  refine ⟨hwin, selectLeg_window_none cfg hwin, ?_⟩
  intro rng routes startDay
  have h0 : windowInv cfg (initializeState cfg startDay) :=
    ⟨rfl, rfl, by simp [initializeState]⟩
  have hg := genDays_window cfg hwin rng routes (List.range' 1 cfg.days)
    (initializeState cfg startDay) 0 h0
  rcases hgd : genDays rng cfg routes (List.range' 1 cfg.days)
    (initializeState cfg startDay, 0) with ⟨s1, r1⟩
  rw [hgd] at hg
  obtain ⟨ha, hf, hd⟩ := hg
  have hffr : finalForcedReturn s1 cfg routes = s1 := by
    simp only [finalForcedReturn]
    rw [if_neg (show ¬(s1.current_airport ≠ cfg.start_airport) from fun hne => hne ha)]
  have hffd : finalFutureDrain s1 = s1 := by
    simp only [finalFutureDrain]
    rw [if_neg (show ¬(s1.future_legs.isEmpty = false) by rw [hf]; decide)]
  have hday : (generateSchedule rng cfg routes startDay).days = s1.generated_days := by
    show (generateScheduleState rng cfg routes startDay).1.generated_days = _
    simp only [generateScheduleState, hgd, hffr, hffd]
  rw [hday]
  exact hd

/-- A configuration whose operating window nominally crosses midnight:
22:00 to 06:00. -/
def cfgC10 : ScheduleConfiguration :=
  { cfgBase with operating_hours :=
      { startHours := 22, startMinutes := 0, endHours := 6, endMinutes := 0 } }

/-- Witness for C10 at the 22:00-to-06:00 window. -/
theorem claim_C10_inverted_window_witness :
    endValue cfgC10.operating_hours < startValue cfgC10.operating_hours ∧
    ((∀ t : Int, isWithinOperatingHours t cfgC10.operating_hours = false) ∧
    (∀ (rng : Nat → Rat) (s : GeneratorState) (haulType : HaulType)
       (routes : List Route) (isReturnLeg isFirstLegOfDay : Bool) (ridx : Nat),
       selectLeg rng s cfgC10 haulType routes isReturnLeg isFirstLegOfDay ridx =
         (none, s, ridx)) ∧
    (∀ (rng : Nat → Rat) (routes : List Route) (startDay : Int),
       ∀ d ∈ (generateSchedule rng cfgC10 routes startDay).days, d.legs = [])) :=
  ⟨by decide, claim_C10_inverted_window cfgC10 (by decide)⟩

end FlightSched

namespace FlightSched

/-! ## Claim C5: short-haul-only configurations -/

/-- The accumulating walk only returns elements of the candidate list. -/
theorem cumSelect_mem {α : Type} (randomValue : Rat) :
    ∀ (c : Rat) (items : List (α × Rat)) (x : α),
      cumSelect randomValue c items = some x → x ∈ items.map Prod.fst
  | _, [], _, h => by simp [cumSelect] at h
  | c, (y, w) :: rest, x, h => by
    rw [cumSelect] at h
    split at h
    · cases h
      simp
    · simp only [List.map_cons, List.mem_cons]
      exact Or.inr (cumSelect_mem randomValue (c + w) rest x h)

/-- `getD` with a default from the list stays in the list. -/
theorem getD_mem {α : Type} (l : List α) (n : Nat) (d : α) (hd : d ∈ l) :
    l.getD n d ∈ l := by
  by_cases hn : n < l.length
  · rw [List.getD_eq_getElem l d hn]
    exact List.getElem_mem hn
  · rw [List.getD_eq_default l d (Nat.le_of_not_lt hn)]
    exact hd

/-- `weightedRandomSelection` only returns elements of the candidate list. -/
theorem weightedRandomSelection_mem {α : Type} (rng : Nat → Rat) (ridx : Nat)
    (items : List (α × Rat)) (y : α) (r2 : Nat)
    (h : weightedRandomSelection rng ridx items = some (y, r2)) :
    y ∈ items.map Prod.fst := by
  cases items with
  | nil => simp [weightedRandomSelection] at h
  | cons x xs =>
    simp only [weightedRandomSelection] at h
    split at h
    · obtain ⟨h1, -⟩ := Prod.mk.inj (Option.some.inj h)
      rw [← h1]
      exact List.mem_map_of_mem Prod.fst (getD_mem (x :: xs) _ x (by simp))
    · split at h
      · next z hz =>
        obtain ⟨h1, -⟩ := Prod.mk.inj (Option.some.inj h)
        rw [← h1]
        exact cumSelect_mem _ _ _ _ hz
      · obtain ⟨h1, -⟩ := Prod.mk.inj (Option.some.inj h)
        rw [← h1]
        simp

/-- Mapping a pointwise-identity function is the identity. -/
theorem map_id_of_eq {α : Type} (f : α → α) (l : List α) (h : ∀ a, f a = a) :
    l.map f = l := by
  induction l with
  | nil => rfl
  | cons a t ih => simp only [List.map_cons, h, ih]

/-- Biasing never changes the route list itself. -/
theorem applyBiasing_fst (routes : List Route) (cfg : ScheduleConfiguration)
    (va : List (String × Nat)) (pa : List String) :
    (applyBiasing routes cfg va pa).map Prod.fst = routes := by
  simp only [applyBiasing]
  split
  · rw [List.map_map, List.map_map]
    exact map_id_of_eq _ routes (fun a => rfl)
  · rw [List.map_map]
    exact map_id_of_eq _ routes (fun a => rfl)

/-- Any leg coming out of `selectLeg` is built from a candidate route that
passed the haul-type filter. -/
theorem selectLeg_out (rng : Nat → Rat) (s : GeneratorState) (cfg : ScheduleConfiguration)
    (haulType : HaulType) (routes : List Route) (isReturnLeg isFirstLegOfDay : Bool)
    (ridx : Nat) :
    (selectLeg rng s cfg haulType routes isReturnLeg isFirstLegOfDay ridx).1 = none ∨
    ∃ sel, (sel ∈ routes ∧ classifyRoute sel.duration_min = haulType) ∧
      (selectLeg rng s cfg haulType routes isReturnLeg isFirstLegOfDay ridx).1 =
        some (buildFlightLeg sel (s.current_time + cfg.turnaround_time_minutes) cfg) := by
  simp only [selectLeg]
  repeat' split
  all_goals try (left; rfl)
  all_goals rename_i x sel ridx2 heq hcond
  all_goals right
  all_goals refine ⟨sel, ?_, rfl⟩
  all_goals have hmem := weightedRandomSelection_mem rng ridx _ sel ridx2 heq
  all_goals rw [apply_ite (List.map Prod.fst)] at hmem
  all_goals split at hmem
  all_goals simp only [List.map_map, List.map_nil] at hmem
  all_goals first
    | (rw [List.mem_map] at hmem
       obtain ⟨p0, hp0, hre⟩ := hmem
       have hmm : sel ∈ (applyBiasing _ cfg s.visited_airports s.preferred_airports).map
           Prod.fst := List.mem_map.2 ⟨p0, hp0, hre⟩
       rw [applyBiasing_fst] at hmm
       simp only [routesFromAirport, List.mem_filter, decide_eq_true_eq] at hmm
       tauto)
    | (exact absurd hmem (List.not_mem_nil _))

/-- A leg returned by `selectLeg` always carries the requested haul type. -/
theorem selectLeg_haul (rng : Nat → Rat) (s : GeneratorState) (cfg : ScheduleConfiguration)
    (haulType : HaulType) (routes : List Route) (isReturnLeg isFirstLegOfDay : Bool)
    (ridx : Nat) (leg : FlightLeg) (st : GeneratorState) (r2 : Nat)
    (h : selectLeg rng s cfg haulType routes isReturnLeg isFirstLegOfDay ridx =
      (some leg, st, r2)) :
    leg.haul_type = haulType := by
  rcases selectLeg_out rng s cfg haulType routes isReturnLeg isFirstLegOfDay ridx with
    hn | ⟨sel, ⟨hselR, hcls⟩, hsome⟩
  · rw [h] at hn
    simp at hn
  · rw [h] at hsome
    have hlg := Option.some.inj hsome
    rw [hlg]
    exact hcls

end FlightSched

namespace FlightSched

/-- Under short-only preferences only short haul is allowed. -/
theorem haulAllowedBy_short (t : HaulType) :
    haulAllowedBy { short := true, medium := false, long := false } t = true ↔
      t = .short := by
  cases t <;> simp [haulAllowedBy]

/-- Under short-only preferences the haul-type selector always picks short
without a draw. -/
theorem selectHaulType_short (cfg : ScheduleConfiguration)
    (hpref : cfg.haul_preferences = { short := true, medium := false, long := false })
    (rng : Nat → Rat) (ridx : Nat) (s : GeneratorState) :
    selectHaulType rng ridx s cfg = (.short, ridx) := by
  simp [selectHaulType, pickHaulType, hpref]

/-- The first-minimal-duration fold only returns elements of the list or the
start accumulator. -/
theorem foldl_min_mem :
    ∀ (l : List Route) (acc : Option Route) (r : Route),
      l.foldl (fun best r => match best with
        | none => some r
        | some b => if r.duration_min < b.duration_min then some r else some b) acc =
        some r →
      r ∈ l ∨ acc = some r := by
  intro l
  induction l with
  | nil =>
    intro acc r h
    exact Or.inr h
  | cons x xs ih =>
    intro acc r h
    rw [List.foldl_cons] at h
    rcases ih _ r h with h1 | h1
    · exact Or.inl (List.mem_cons_of_mem x h1)
    · rcases acc with _ | b
      · have h2 : some x = some r := h1
        rw [← Option.some.inj h2]
        exact Or.inl (List.mem_cons_self x xs)
      · have h2 : (if x.duration_min < b.duration_min then some x else some b) = some r := h1
        split at h2
        · rw [← Option.some.inj h2]
          exact Or.inl (List.mem_cons_self x xs)
        · exact Or.inr h2

/-- `firstMinDuration` only returns elements of its list. -/
theorem firstMinDuration_mem (rs : List Route) (r : Route)
    (h : firstMinDuration rs = some r) : r ∈ rs := by
  rcases foldl_min_mem rs none r h with h1 | h1
  · exact h1
  · exact absurd h1 (by simp)

/-- The earliest-return search only returns routes from its list. -/
theorem findEarliestReturnFlight_mem (t : Int) (a b : String) (rs : List Route)
    (cfg : ScheduleConfiguration) (r : Route) (dep : Int)
    (h : findEarliestReturnFlight t a b rs cfg = some (r, dep)) : r ∈ rs := by
  simp only [findEarliestReturnFlight] at h
  repeat' split at h
  all_goals first
    | (obtain ⟨h1, -⟩ := Prod.mk.inj (Option.some.inj h)
       rw [← h1]
       exact List.mem_of_mem_filter (firstMinDuration_mem _ _ (by assumption)))
    | simp at h

/-- Under short-only preferences the return-candidate filter only keeps
short-classified routes, whatever haul type is requested. -/
theorem returnHaulFilter_short (cfg : ScheduleConfiguration)
    (hpref : cfg.haul_preferences = { short := true, medium := false, long := false })
    (ht : Option HaulType) (avail : List Route) (r : Route)
    (h : r ∈ returnHaulFilter cfg ht avail) : classifyRoute r.duration_min = .short := by
  rcases ht with _ | hh
  · simp only [returnHaulFilter] at h
    rw [hpref] at h
    exact (haulAllowedBy_short _).1 (List.mem_filter.1 h).2
  · simp only [returnHaulFilter] at h
    rw [hpref] at h
    split at h
    · next hall =>
      have hcls := of_decide_eq_true (List.mem_filter.1 h).2
      rw [hcls]
      exact (haulAllowedBy_short hh).1 hall
    · exact (haulAllowedBy_short _).1 (List.mem_filter.1 h).2

/-- Under short-only preferences every planned return leg is short. -/
theorem planReturnToBase_short (cfg : ScheduleConfiguration)
    (hpref : cfg.haul_preferences = { short := true, medium := false, long := false })
    (s : GeneratorState) (routes : List Route) (ht : Option HaulType) (leg : FlightLeg)
    (h : planReturnToBase s cfg routes ht = some leg) : leg.haul_type = .short := by
  simp only [planReturnToBase] at h
  repeat' split at h
  all_goals first
    | (have hleg := Option.some.inj h
       rw [← hleg]
       exact returnHaulFilter_short cfg hpref ht _ _ (List.mem_of_mem_filter
         (findEarliestReturnFlight_mem _ _ _ _ _ _ _ (by assumption))))
    | simp at h

/-- Under short-only preferences every leg of a forced-return day is short. -/
theorem planForcedReturn_short (cfg : ScheduleConfiguration)
    (hpref : cfg.haul_preferences = { short := true, medium := false, long := false })
    (s : GeneratorState) (routes : List Route) (n : Nat) (ht : Option HaulType)
    (d : DaySchedule) (h : planForcedReturn s cfg routes n ht = some d) :
    ∀ l ∈ d.legs, l.haul_type = .short := by
  simp only [planForcedReturn] at h
  repeat' split at h
  all_goals first
    | (have hd := Option.some.inj h
       rw [← hd]
       intro l hl
       rcases List.mem_singleton.1 hl with rfl
       exact returnHaulFilter_short cfg hpref ht _ _ (List.mem_of_mem_filter
         (firstMinDuration_mem _ _ (by assumption))))
    | simp at h

/-- A repeated trip reuses the stored haul types and never touches the
overflow buffer. -/
theorem planRepeatedTrip_shape (s : GeneratorState) (cfg : ScheduleConfiguration)
    (o r : FlightLeg) :
    (∀ l ∈ (planRepeatedTrip s cfg o r).1.legs,
      l.haul_type = o.haul_type ∨ l.haul_type = r.haul_type) ∧
    (planRepeatedTrip s cfg o r).2.future_legs = s.future_legs := by
  simp only [planRepeatedTrip]
  repeat' split
  all_goals refine ⟨?_, rfl⟩
  all_goals intro l hl
  · rcases List.mem_cons.1 hl with rfl | hl2
    · exact Or.inl rfl
    · rcases List.mem_singleton.1 hl2 with rfl
      exact Or.inr rfl
  · rcases List.mem_singleton.1 hl with rfl
    exact Or.inl rfl
  · exact absurd hl (List.not_mem_nil l)

end FlightSched

namespace FlightSched

/-- Under short-only preferences every leg of a fresh trip is short, and the
overflow buffer is untouched. -/
theorem planTrip_short (rng : Nat → Rat) (s : GeneratorState) (cfg : ScheduleConfiguration)
    (hpref : cfg.haul_preferences = { short := true, medium := false, long := false })
    (routes : List Route) (ridx : Nat) :
    (∀ l ∈ (planTrip rng s cfg .short routes ridx).1.legs, l.haul_type = .short) ∧
    (planTrip rng s cfg .short routes ridx).2.1.future_legs = s.future_legs := by
  simp only [planTrip]
  split
  · next s1 r2 heq =>
    refine ⟨fun l hl => absurd hl (List.not_mem_nil l), ?_⟩
    obtain ⟨p, hp⟩ := selectLeg_state rng s cfg .short routes false false
      (selectDayStyle rng cfg ridx).2
    rw [heq] at hp
    have h2 : s1 = { s with preferred_airports := p } := hp
    rw [h2]
  · next firstLeg sA r2 heq =>
    have hfirst : firstLeg.haul_type = .short :=
      selectLeg_haul rng s cfg .short routes false false _ firstLeg sA r2 heq
    have hAfut : sA.future_legs = s.future_legs := by
      obtain ⟨p, hp⟩ := selectLeg_state rng s cfg .short routes false false
        (selectDayStyle rng cfg ridx).2
      rw [heq] at hp
      have h2 : sA = { s with preferred_airports := p } := hp
      rw [h2]
    have hfinal : ∀ (legs2 : List FlightLeg) (s3 : GeneratorState) (r3 : Nat),
        (∀ l ∈ legs2, l.haul_type = .short) → s3.future_legs = s.future_legs →
        (∀ l ∈ ((if s3.current_airport = cfg.start_airport then
            (({ success := true, message := "Trip planned successfully", legs := legs2 } :
              TripResult), s3, r3)
          else
            match planReturnToBase s3 cfg routes (some .short) with
            | some returnLeg =>
              ({ success := true, message := "Trip planned successfully",
                 legs := legs2 ++ [returnLeg] }, applyLeg s3 returnLeg, r3)
            | none =>
              ({ success := false, message := "Cannot return to base", legs := legs2 },
               s3, r3)) : TripResult × GeneratorState × Nat).1.legs, l.haul_type = .short) ∧
        ((if s3.current_airport = cfg.start_airport then
            (({ success := true, message := "Trip planned successfully", legs := legs2 } :
              TripResult), s3, r3)
          else
            match planReturnToBase s3 cfg routes (some .short) with
            | some returnLeg =>
              ({ success := true, message := "Trip planned successfully",
                 legs := legs2 ++ [returnLeg] }, applyLeg s3 returnLeg, r3)
            | none =>
              ({ success := false, message := "Cannot return to base", legs := legs2 },
               s3, r3)) : TripResult × GeneratorState × Nat).2.1.future_legs =
          s.future_legs := by
      intro legs2 s3 r3 hlegs hfut
      split
      · exact ⟨hlegs, hfut⟩
      · split
        · next returnLeg hret =>
          refine ⟨?_, by simp [hfut]⟩
          intro l hl
          rcases List.mem_append.1 hl with h1 | h1
          · exact hlegs l h1
          · rcases List.mem_singleton.1 h1 with rfl
            exact planReturnToBase_short cfg hpref s3 routes (some .short) l hret
        · exact ⟨hlegs, hfut⟩
    by_cases hml : (selectDayStyle rng cfg ridx).1 = false ∧ (.short : HaulType) ≠ .long ∧
        cfg.repetition_mode = false
    · rw [if_pos hml]
      rcases hsel : selectLeg rng (applyLeg sA firstLeg) cfg .short routes false false r2
        with ⟨l2opt, s4, r4⟩
      have h4fut : s4.future_legs = s.future_legs := by
        obtain ⟨p, hp⟩ := selectLeg_state rng (applyLeg sA firstLeg) cfg .short routes
          false false r2
        rw [hsel] at hp
        have h2 : s4 = { applyLeg sA firstLeg with preferred_airports := p } := hp
        rw [h2]
        show (applyLeg sA firstLeg).future_legs = _
        simp [hAfut]
      cases l2opt with
      | none =>
        refine hfinal [firstLeg] s4 r4 ?_ h4fut
        intro l hl
        rcases List.mem_singleton.1 hl with rfl
        exact hfirst
      | some secondLeg =>
        have hsecond : secondLeg.haul_type = .short :=
          selectLeg_haul rng (applyLeg sA firstLeg) cfg .short routes false false r2
            secondLeg s4 r4 hsel
        refine hfinal [firstLeg, secondLeg] (applyLeg s4 secondLeg) r4 ?_ (by simp [h4fut])
        intro l hl
        rcases List.mem_cons.1 hl with rfl | hl2
        · exact hfirst
        · rcases List.mem_singleton.1 hl2 with rfl
          exact hsecond
    · rw [if_neg hml]
      refine hfinal [firstLeg] (applyLeg sA firstLeg) r2 ?_ (by simp [hAfut])
      intro l hl
      rcases List.mem_singleton.1 hl with rfl
      exact hfirst

end FlightSched

namespace FlightSched

/-- `getLast?` only returns elements of the list. -/
theorem getLast?_mem_local {α : Type} :
    ∀ (L : List α) (a : α), L.getLast? = some a → a ∈ L
  | [], a, h => by simp at h
  | [x], a, h => by
    have h2 : some x = some a := h
    rw [← Option.some.inj h2]
    exact List.mem_cons_self x []
  | x :: y :: ys, a, h => by
    rw [List.getLast?_cons_cons] at h
    exact List.mem_cons_of_mem x (getLast?_mem_local (y :: ys) a h)

/-- Heads of all-short lists are short. -/
theorem head?_short (L : List FlightLeg) (h : ∀ l ∈ L, l.haul_type = .short)
    (l : FlightLeg) (hl : L.head? = some l) : l.haul_type = .short := by
  cases L with
  | nil => simp at hl
  | cons a t =>
    rw [List.head?_cons] at hl
    rw [← Option.some.inj hl]
    exact h a (List.mem_cons_self a t)

/-- Last elements of all-short lists are short. -/
theorem getLast?_short (L : List FlightLeg) (h : ∀ l ∈ L, l.haul_type = .short)
    (l : FlightLeg) (hl : L.getLast? = some l) : l.haul_type = .short :=
  h l (getLast?_mem_local L l hl)

/-- Day-loop invariant of a short-only run: all accumulated legs, both stored
repetition legs and all buffered overflow legs are short. -/
def shortLoopInv (s : LoopSt) : Prop :=
  (∀ l ∈ s.legs, l.haul_type = HaulType.short) ∧
  (∀ l, s.repOut = some l → l.haul_type = HaulType.short) ∧
  (∀ l, s.repRet = some l → l.haul_type = HaulType.short) ∧
  (∀ l ∈ s.gs.future_legs, l.haul_type = HaulType.short)

/-- Post-trip processing preserves the short-only invariant when the trip only
produced short legs. -/
theorem dayStepFinish_short (cfg : ScheduleConfiguration) (haulType : HaulType)
    (d0 : Int) (s : LoopSt) (tr : TripResult)
    (htr : ∀ l ∈ tr.legs, l.haul_type = .short) (hinv : shortLoopInv s) :
    shortLoopInv (dayStepFinish cfg haulType d0 s tr) := by
  obtain ⟨hlegs, hro, hrr, hfut⟩ := hinv
  have happ : ∀ l ∈ s.legs ++ tr.legs.filter (fun lg => decide (dayOf lg.departure_time = d0)),
      l.haul_type = HaulType.short := by
    intro l hl
    rcases List.mem_append.1 hl with h1 | h1
    · exact hlegs l h1
    · exact htr l (List.mem_of_mem_filter h1)
  simp only [dayStepFinish]
  split
  · exact ⟨hlegs, hro, hrr, hfut⟩
  · split
    · exact ⟨happ, hro, hrr, fun l hl => htr l (List.mem_of_mem_filter hl)⟩
    · repeat' split
      all_goals exact ⟨happ, hro, hrr, hfut⟩

/-- One loop iteration preserves the short-only invariant. -/
theorem dayStep_short (rng : Nat → Rat) (cfg : ScheduleConfiguration)
    (hpref : cfg.haul_preferences = { short := true, medium := false, long := false })
    (routes : List Route) (d0 : Int) (s : LoopSt) (hinv : shortLoopInv s) :
    shortLoopInv (dayStep rng cfg routes .short d0 s) := by
  obtain ⟨hlegs, hro, hrr, hfut⟩ := hinv
  simp only [dayStep]
  split
  · exact ⟨hlegs, hro, hrr, hfut⟩
  · split
    · next o r hm heq1 heq2 =>
      obtain ⟨htr, hfut2⟩ := planRepeatedTrip_shape s.gs cfg o r
      apply dayStepFinish_short
      · intro l hl
        rcases htr l hl with h1 | h1
        · rw [h1]
          exact hro o heq1
        · rw [h1]
          exact hrr r heq2
      · refine ⟨hlegs, hro, hrr, ?_⟩
        intro l hl
        have hl2 : l ∈ (planRepeatedTrip s.gs cfg o r).2.future_legs := hl
        rw [hfut2] at hl2
        exact hfut l hl2
    · obtain ⟨htr, hfut2⟩ := planTrip_short rng s.gs cfg hpref routes s.ridx
      have hfutS : ∀ l ∈ (planTrip rng s.gs cfg .short routes s.ridx).2.1.future_legs,
          l.haul_type = HaulType.short := by
        intro l hl
        rw [hfut2] at hl
        exact hfut l hl
      split
      · exact dayStepFinish_short _ _ _ _ _ htr
          ⟨hlegs, fun l hl => head?_short _ htr l hl,
           fun l hl => getLast?_short _ htr l hl, hfutS⟩
      · exact dayStepFinish_short _ _ _ _ _ htr ⟨hlegs, hro, hrr, hfutS⟩

/-- The whole loop preserves the short-only invariant. -/
theorem dayLoop_short (rng : Nat → Rat) (cfg : ScheduleConfiguration)
    (hpref : cfg.haul_preferences = { short := true, medium := false, long := false })
    (routes : List Route) (d0 : Int) :
    ∀ (n : Nat) (s : LoopSt), shortLoopInv s →
      shortLoopInv (dayLoop rng cfg routes .short d0 n s)
  | 0, _, h => h
  | Nat.succ n, s, h => by
    rw [dayLoop]
    split
    · exact h
    · exact dayLoop_short rng cfg hpref routes d0 n _
        (dayStep_short rng cfg hpref routes d0 s h)

/-- Under short-only preferences every leg of a scheduled day is short and the
outgoing overflow buffer stays all-short. -/
theorem generateDailySchedule_short (rng : Nat → Rat) (day : Nat) (gs : GeneratorState)
    (cfg : ScheduleConfiguration) (routes : List Route) (ridx : Nat)
    (hpref : cfg.haul_preferences = { short := true, medium := false, long := false })
    (hgfut : ∀ l ∈ gs.future_legs, l.haul_type = HaulType.short) :
    (∀ l ∈ (generateDailySchedule rng day gs cfg routes ridx).1.legs,
      l.haul_type = HaulType.short) ∧
    (∀ l ∈ (generateDailySchedule rng day gs cfg routes ridx).2.1.future_legs,
      l.haul_type = HaulType.short) := by
  have hinit : shortLoopInv (dayLoopInit rng ridx gs cfg).2 := by
    refine ⟨?_, ?_, ?_, hgfut⟩
    · intro l hl
      exact absurd hl (List.not_mem_nil l)
    · intro l hl
      exact Option.noConfusion hl
    · intro l hl
      exact Option.noConfusion hl
  have hht : (dayLoopInit rng ridx gs cfg).1 = HaulType.short := by
    show (selectHaulType rng ridx gs cfg).1 = HaulType.short
    rw [selectHaulType_short cfg hpref rng ridx gs]
  obtain ⟨hl1, -, -, hl4⟩ := dayLoop_short rng cfg hpref routes gs.current_date FUEL
    (dayLoopInit rng ridx gs cfg).2 hinit
  simp only [generateDailySchedule, hht]
  split
  · exact ⟨hl1, hl4⟩
  · exact ⟨hl1, hl4⟩

end FlightSched

namespace FlightSched

/-- Generator-level invariant of a short-only run: every emitted leg and every
buffered overflow leg is short. -/
def shortGenInv (s : GeneratorState) : Prop :=
  (∀ d ∈ s.generated_days, ∀ l ∈ d.legs, l.haul_type = HaulType.short) ∧
  (∀ l ∈ s.future_legs, l.haul_type = HaulType.short)

/-- The overnight-return handler preserves the short-only invariant. -/
theorem handleOvernightReturn_short (s : GeneratorState) (cfg : ScheduleConfiguration)
    (routes : List Route) (hinv : shortGenInv s) :
    shortGenInv (handleOvernightReturn s cfg routes) := by
  simp only [handleOvernightReturn]
  repeat' split
  all_goals exact hinv

/-- Draining the overflow buffer preserves the short-only invariant. -/
theorem processFutureLegs_short (s : GeneratorState) (day : Nat) (hinv : shortGenInv s) :
    shortGenInv (processFutureLegs s day) := by
  obtain ⟨hd, hf⟩ := hinv
  simp only [processFutureLegs]
  split
  · exact ⟨hd, hf⟩
  · split
    · constructor
      · intro d hdm
        rcases List.mem_append.1 hdm with h1 | h1
        · exact hd d h1
        · rcases List.mem_singleton.1 h1 with rfl
          intro l hl
          exact hf l (List.mem_of_mem_filter hl)
      · intro l hl
        exact hf l (List.mem_of_mem_filter hl)
    · constructor
      · intro d hdm
        rcases List.mem_append.1 hdm with h1 | h1
        · exact hd d h1
        · rcases List.mem_singleton.1 h1 with rfl
          intro l hl
          exact hf l (List.mem_of_mem_filter hl)
      · intro l hl
        exact hf l (List.mem_of_mem_filter hl)

/-- The day-building core preserves the short-only invariant. -/
theorem oneGenDayCore_short (rng : Nat → Rat) (cfg : ScheduleConfiguration)
    (routes : List Route) (day : Nat) (s1 : GeneratorState) (ridx : Nat)
    (hpref : cfg.haul_preferences = { short := true, medium := false, long := false })
    (hinv : shortGenInv s1) :
    shortGenInv (oneGenDayCore rng cfg routes day s1 ridx).1 := by
  obtain ⟨hd1, hf1⟩ := hinv
  simp only [oneGenDayCore]
  split
  · exact processFutureLegs_short s1 day ⟨hd1, hf1⟩
  · obtain ⟨hdl, hdf⟩ := generateDailySchedule_short rng day s1 cfg routes ridx hpref hf1
    constructor
    · intro d hdm
      have hpres := (generateDailySchedule_spec rng day s1 cfg routes ridx).2.1
      rcases List.mem_append.1 hdm with h1 | h1
      · rw [hpres] at h1
        exact hd1 d h1
      · rcases List.mem_singleton.1 h1 with rfl
        exact hdl
    · exact hdf

/-- One generator-day iteration preserves the short-only invariant. -/
theorem oneGenDay_short (rng : Nat → Rat) (cfg : ScheduleConfiguration)
    (routes : List Route) (day : Nat) (s : GeneratorState) (ridx : Nat)
    (hpref : cfg.haul_preferences = { short := true, medium := false, long := false })
    (hinv : shortGenInv s) :
    shortGenInv (oneGenDay rng cfg routes day s ridx).1 := by
  have hinv1 : shortGenInv (if s.current_airport ≠ cfg.start_airport then
      handleOvernightReturn s cfg routes else s) := by
    split
    · exact handleOvernightReturn_short s cfg routes hinv
    · exact hinv
  have hcore := oneGenDayCore_short rng cfg routes day
    (if s.current_airport ≠ cfg.start_airport then handleOvernightReturn s cfg routes else s)
    ridx hpref hinv1
  rcases hco : oneGenDayCore rng cfg routes day
    (if s.current_airport ≠ cfg.start_airport then handleOvernightReturn s cfg routes else s)
    ridx with ⟨s2, r2⟩
  rw [hco] at hcore
  simp only [oneGenDay]
  rw [hco]
  exact ⟨hcore.1, hcore.2⟩

/-- The generator's day loop preserves the short-only invariant. -/
theorem genDays_short (rng : Nat → Rat) (cfg : ScheduleConfiguration)
    (routes : List Route)
    (hpref : cfg.haul_preferences = { short := true, medium := false, long := false }) :
    ∀ (ds : List Nat) (s : GeneratorState) (ridx : Nat), shortGenInv s →
      shortGenInv (genDays rng cfg routes ds (s, ridx)).1
  | [], _, _, hinv => hinv
  | day :: ds, s, ridx, hinv => by
    simp only [genDays]
    rcases hone : oneGenDay rng cfg routes day s ridx with ⟨s2, r2⟩
    have h2 := oneGenDay_short rng cfg routes day s ridx hpref hinv
    rw [hone] at h2
    exact genDays_short rng cfg routes hpref ds s2 r2 h2

/-- C5: when only short haul is allowed, every flight leg of every day of the
generated schedule is short — outbound, onward, same-day return and
forced-return legs alike. -/
theorem claim_C5_short_only (rng : Nat → Rat) (cfg : ScheduleConfiguration)
    (routes : List Route) (startDay : Int)
    (hpref : cfg.haul_preferences = { short := true, medium := false, long := false }) :
    ∀ d ∈ (generateSchedule rng cfg routes startDay).days, ∀ l ∈ d.legs,
      l.haul_type = HaulType.short := by
  have h0 : shortGenInv (initializeState cfg startDay) :=
    ⟨by simp [initializeState], by simp [initializeState]⟩
  have hg := genDays_short rng cfg routes hpref (List.range' 1 cfg.days)
    (initializeState cfg startDay) 0 h0
  rcases hgd : genDays rng cfg routes (List.range' 1 cfg.days)
    (initializeState cfg startDay, 0) with ⟨s1, r1⟩
  rw [hgd] at hg
  have h2 : shortGenInv (finalForcedReturn s1 cfg routes) := by
    simp only [finalForcedReturn]
    split
    · split
      · next d hd =>
        refine ⟨?_, hg.2⟩
        intro d2 hd2
        rcases List.mem_append.1 hd2 with h1 | h1
        · exact hg.1 d2 h1
        · rcases List.mem_singleton.1 h1 with rfl
          exact planForcedReturn_short cfg hpref s1 routes _ none d2 hd
      · exact hg
    · exact hg
  have h3 : shortGenInv (finalFutureDrain (finalForcedReturn s1 cfg routes)) := by
    simp only [finalFutureDrain]
    split
    · exact processFutureLegs_short _ _ h2
    · exact h2
  have hday : (generateSchedule rng cfg routes startDay).days =
      (finalFutureDrain (finalForcedReturn s1 cfg routes)).generated_days := by
    show (generateScheduleState rng cfg routes startDay).1.generated_days = _
    simp only [generateScheduleState, hgd]
  rw [hday]
  exact h3.1

/-- Witness for C5 at the baseline short-only configuration. -/
theorem claim_C5_short_only_witness :
    cfgBase.haul_preferences = { short := true, medium := false, long := false } ∧
    ∀ d ∈ (generateSchedule rngZero cfgBase [routeLHRCDG, routeCDGLHR] 0).days,
      ∀ l ∈ d.legs, l.haul_type = HaulType.short :=
  ⟨rfl, claim_C5_short_only rngZero cfgBase [routeLHRCDG, routeCDGLHR] 0 rfl⟩

end FlightSched

namespace FlightSched

/-! ## Claim C9: chronological ordering within a day -/

/-- `dayOf` as integer division, in the form the `omega` decision procedure
understands. -/
theorem dayOf_eq_div : ∀ t : Int, dayOf t = t / 1440 := fun _ => rfl

/-- The earliest-return search returns a route of the list and never departs
before current time plus turnaround. -/
theorem findEarliestReturnFlight_shape (t : Int) (a b : String) (rs : List Route)
    (cfg : ScheduleConfiguration) (hstart : 0 ≤ startValue cfg.operating_hours)
    (r : Route) (dep : Int)
    (h : findEarliestReturnFlight t a b rs cfg = some (r, dep)) :
    r ∈ rs ∧ t + cfg.turnaround_time_minutes ≤ dep := by
  simp only [findEarliestReturnFlight] at h
  repeat' split at h
  all_goals simp at h
  all_goals obtain ⟨h1, h2⟩ := h
  all_goals constructor
  all_goals first
    | (rw [← h1]
       exact List.mem_of_mem_filter (firstMinDuration_mem _ _ (by assumption)))
    | ((try simp only [dayOf_eq_div] at h2)
       omega)

/-- Membership through the return-candidate filter. -/
theorem returnHaulFilter_subset (cfg : ScheduleConfiguration) (ht : Option HaulType)
    (avail : List Route) (r : Route) (h : r ∈ returnHaulFilter cfg ht avail) :
    r ∈ avail := by
  rcases ht with _ | hh
  · simp only [returnHaulFilter] at h
    exact List.mem_of_mem_filter h
  · simp only [returnHaulFilter] at h
    split at h
    · exact List.mem_of_mem_filter h
    · exact List.mem_of_mem_filter h

/-- A planned return leg is well formed and departs no earlier than current
time plus turnaround. -/
theorem planReturnToBase_shape (s : GeneratorState) (cfg : ScheduleConfiguration)
    (routes : List Route) (ht : Option HaulType)
    (hstart : 0 ≤ startValue cfg.operating_hours)
    (hdur : ∀ r ∈ routes, 0 ≤ r.duration_min) (leg : FlightLeg)
    (h : planReturnToBase s cfg routes ht = some leg) :
    (leg.arrival_time = leg.departure_time + leg.duration_min ∧ 0 ≤ leg.duration_min) ∧
    s.current_time + cfg.turnaround_time_minutes ≤ leg.departure_time := by
  simp only [planReturnToBase] at h
  repeat' split at h
  all_goals first
    | (have hleg := Option.some.inj h
       obtain ⟨hmem, hdep⟩ := findEarliestReturnFlight_shape _ _ _ _ cfg hstart _ _
         (by assumption)
       have hrr : _ ∈ routes := List.mem_of_mem_filter
         (show _ ∈ routesFromAirport routes s.current_airport from
           returnHaulFilter_subset cfg ht _ _ (List.mem_of_mem_filter hmem))
       exact ⟨⟨by rw [← hleg]; rfl, by rw [← hleg]; exact hdur _ hrr⟩,
         by rw [← hleg]; exact hdep⟩)
    | simp at h

/-- Chronology facts for a repeated trip with well-formed stored legs. -/
theorem planRepeatedTrip_chrono (s : GeneratorState) (cfg : ScheduleConfiguration)
    (o r : FlightLeg) (hτ : 0 ≤ cfg.turnaround_time_minutes)
    (ho1 : o.arrival_time = o.departure_time + o.duration_min) (ho2 : 0 ≤ o.duration_min)
    (hr1 : r.arrival_time = r.departure_time + r.duration_min) (hr2 : 0 ≤ r.duration_min) :
    (∀ l ∈ (planRepeatedTrip s cfg o r).1.legs,
       (l.arrival_time = l.departure_time + l.duration_min ∧ 0 ≤ l.duration_min) ∧
       s.current_time + cfg.turnaround_time_minutes ≤ l.departure_time ∧
       l.arrival_time ≤ (planRepeatedTrip s cfg o r).2.current_time) ∧
    (planRepeatedTrip s cfg o r).1.legs.Pairwise
      (fun a b => a.arrival_time ≤ b.departure_time) ∧
    s.current_time ≤ (planRepeatedTrip s cfg o r).2.current_time := by
  simp only [planRepeatedTrip]
  split
  · split
    · refine ⟨?_, ?_, ?_⟩
      · intro l hl
        rcases List.mem_cons.1 hl with rfl | hl2
        · exact ⟨⟨by (try simp only [applyLeg]); omega, by (try simp only [applyLeg]); omega⟩,
            by (try simp only [applyLeg]); omega, by (try simp only [applyLeg]); omega⟩
        · rcases List.mem_singleton.1 hl2 with rfl
          exact ⟨⟨by (try simp only [applyLeg]); omega, by (try simp only [applyLeg]); omega⟩,
            by (try simp only [applyLeg]); omega, by (try simp only [applyLeg]); omega⟩
      · refine List.Pairwise.cons ?_ (List.pairwise_singleton _ _)
        intro b hb
        rcases List.mem_singleton.1 hb with rfl
        (try simp only [applyLeg])
        omega
      · (try simp only [applyLeg])
        omega
    · refine ⟨?_, List.pairwise_singleton _ _, ?_⟩
      · intro l hl
        rcases List.mem_singleton.1 hl with rfl
        exact ⟨⟨by (try simp only [applyLeg]); omega, by (try simp only [applyLeg]); omega⟩,
          by (try simp only [applyLeg]); omega, by (try simp only [applyLeg]); omega⟩
      · (try simp only [applyLeg])
        omega
  · exact ⟨fun l hl => absurd hl (List.not_mem_nil l), List.Pairwise.nil, le_refl _⟩

end FlightSched

namespace FlightSched

/-- Shape of a successfully selected leg: it is built from a listed route and
departs at current time plus turnaround. -/
theorem selectLeg_shape (rng : Nat → Rat) (s : GeneratorState) (cfg : ScheduleConfiguration)
    (haulType : HaulType) (routes : List Route) (b1 b2 : Bool) (ridx : Nat)
    (leg : FlightLeg) (st : GeneratorState) (r2 : Nat)
    (h : selectLeg rng s cfg haulType routes b1 b2 ridx = (some leg, st, r2)) :
    ∃ sel, sel ∈ routes ∧
      leg = buildFlightLeg sel (s.current_time + cfg.turnaround_time_minutes) cfg := by
  rcases selectLeg_out rng s cfg haulType routes b1 b2 ridx with hn | ⟨sel, ⟨hmem, -⟩, hsome⟩
  · rw [h] at hn
    simp at hn
  · rw [h] at hsome
    exact ⟨sel, hmem, Option.some.inj hsome⟩

/-- Chronology facts for a fresh trip: every leg is well formed, departs no
earlier than the start-of-trip clock, arrives no later than the end-of-trip
clock, the legs are pairwise ordered, and the clock never goes backwards. -/
theorem planTrip_chrono (rng : Nat → Rat) (s : GeneratorState) (cfg : ScheduleConfiguration)
    (haulType : HaulType) (routes : List Route) (ridx : Nat)
    (hτ : 0 ≤ cfg.turnaround_time_minutes)
    (hstart : 0 ≤ startValue cfg.operating_hours)
    (hdur : ∀ r ∈ routes, 0 ≤ r.duration_min) :
    (∀ l ∈ (planTrip rng s cfg haulType routes ridx).1.legs,
       (l.arrival_time = l.departure_time + l.duration_min ∧ 0 ≤ l.duration_min) ∧
       s.current_time + cfg.turnaround_time_minutes ≤ l.departure_time ∧
       l.arrival_time ≤ (planTrip rng s cfg haulType routes ridx).2.1.current_time) ∧
    (planTrip rng s cfg haulType routes ridx).1.legs.Pairwise
      (fun a b => a.arrival_time ≤ b.departure_time) ∧
    s.current_time ≤ (planTrip rng s cfg haulType routes ridx).2.1.current_time := by
  simp only [planTrip]
  split
  · next s1 r2 heq =>
    obtain ⟨p, hp⟩ := selectLeg_state rng s cfg haulType routes false false
      (selectDayStyle rng cfg ridx).2
    rw [heq] at hp
    have h1 : s1 = { s with preferred_airports := p } := hp
    refine ⟨fun l hl => absurd hl (List.not_mem_nil l), List.Pairwise.nil, ?_⟩
    rw [h1]
  · next firstLeg sA r2 heq =>
    obtain ⟨sel1, hsel1R, hfl⟩ := selectLeg_shape rng s cfg haulType routes false false _
      firstLeg sA r2 heq
    have hAcur : sA.current_time = s.current_time := by
      obtain ⟨p, hp⟩ := selectLeg_state rng s cfg haulType routes false false
        (selectDayStyle rng cfg ridx).2
      rw [heq] at hp
      have h2 : sA = { s with preferred_airports := p } := hp
      rw [h2]
    have hf_wf : firstLeg.arrival_time = firstLeg.departure_time + firstLeg.duration_min := by
      rw [hfl]
      rfl
    have hf_dur : 0 ≤ firstLeg.duration_min := by
      rw [hfl]
      exact hdur sel1 hsel1R
    have hf_dep : firstLeg.departure_time = s.current_time + cfg.turnaround_time_minutes := by
      rw [hfl]
      rfl
    have hfinal : ∀ (legs2 : List FlightLeg) (s3 : GeneratorState) (r3 : Nat),
        (∀ l ∈ legs2,
          (l.arrival_time = l.departure_time + l.duration_min ∧ 0 ≤ l.duration_min) ∧
          s.current_time + cfg.turnaround_time_minutes ≤ l.departure_time ∧
          l.arrival_time ≤ s3.current_time) →
        legs2.Pairwise (fun a b => a.arrival_time ≤ b.departure_time) →
        s.current_time ≤ s3.current_time →
        (∀ l ∈ ((if s3.current_airport = cfg.start_airport then
            (({ success := true, message := "Trip planned successfully", legs := legs2 } :
              TripResult), s3, r3)
          else
            match planReturnToBase s3 cfg routes (some haulType) with
            | some returnLeg =>
              ({ success := true, message := "Trip planned successfully",
                 legs := legs2 ++ [returnLeg] }, applyLeg s3 returnLeg, r3)
            | none =>
              ({ success := false, message := "Cannot return to base", legs := legs2 },
               s3, r3)) : TripResult × GeneratorState × Nat).1.legs,
          (l.arrival_time = l.departure_time + l.duration_min ∧ 0 ≤ l.duration_min) ∧
          s.current_time + cfg.turnaround_time_minutes ≤ l.departure_time ∧
          l.arrival_time ≤ ((if s3.current_airport = cfg.start_airport then
            (({ success := true, message := "Trip planned successfully", legs := legs2 } :
              TripResult), s3, r3)
          else
            match planReturnToBase s3 cfg routes (some haulType) with
            | some returnLeg =>
              ({ success := true, message := "Trip planned successfully",
                 legs := legs2 ++ [returnLeg] }, applyLeg s3 returnLeg, r3)
            | none =>
              ({ success := false, message := "Cannot return to base", legs := legs2 },
               s3, r3)) : TripResult × GeneratorState × Nat).2.1.current_time) ∧
        ((if s3.current_airport = cfg.start_airport then
            (({ success := true, message := "Trip planned successfully", legs := legs2 } :
              TripResult), s3, r3)
          else
            match planReturnToBase s3 cfg routes (some haulType) with
            | some returnLeg =>
              ({ success := true, message := "Trip planned successfully",
                 legs := legs2 ++ [returnLeg] }, applyLeg s3 returnLeg, r3)
            | none =>
              ({ success := false, message := "Cannot return to base", legs := legs2 },
               s3, r3)) : TripResult × GeneratorState × Nat).1.legs.Pairwise
          (fun a b => a.arrival_time ≤ b.departure_time) ∧
        s.current_time ≤ ((if s3.current_airport = cfg.start_airport then
            (({ success := true, message := "Trip planned successfully", legs := legs2 } :
              TripResult), s3, r3)
          else
            match planReturnToBase s3 cfg routes (some haulType) with
            | some returnLeg =>
              ({ success := true, message := "Trip planned successfully",
                 legs := legs2 ++ [returnLeg] }, applyLeg s3 returnLeg, r3)
            | none =>
              ({ success := false, message := "Cannot return to base", legs := legs2 },
               s3, r3)) : TripResult × GeneratorState × Nat).2.1.current_time := by
      intro legs2 s3 r3 hlegs hpair hcur
      split
      · exact ⟨hlegs, hpair, hcur⟩
      · split
        · next returnLeg hret =>
          obtain ⟨⟨hrwf, hrdur⟩, hrdep⟩ := planReturnToBase_shape s3 cfg routes
            (some haulType) hstart hdur returnLeg hret
          refine ⟨?_, ?_, ?_⟩
          · intro l hl
            rcases List.mem_append.1 hl with h1 | h1
            · obtain ⟨hw, hd, ha⟩ := hlegs l h1
              refine ⟨hw, hd, ?_⟩
              simp only [applyLeg_time]
              omega
            · rcases List.mem_singleton.1 h1 with rfl
              refine ⟨⟨hrwf, hrdur⟩, by omega, ?_⟩
              simp only [applyLeg_time]
              omega
          · rw [List.pairwise_append]
            refine ⟨hpair, List.pairwise_singleton _ _, ?_⟩
            intro a ha b hb
            rcases List.mem_singleton.1 hb with rfl
            obtain ⟨-, -, haa⟩ := hlegs a ha
            omega
          · simp only [applyLeg_time]
            omega
        · exact ⟨hlegs, hpair, hcur⟩
    by_cases hml : (selectDayStyle rng cfg ridx).1 = false ∧ haulType ≠ HaulType.long ∧
        cfg.repetition_mode = false
    · rw [if_pos hml]
      rcases hsel : selectLeg rng (applyLeg sA firstLeg) cfg haulType routes false false r2
        with ⟨l2opt, s4, r4⟩
      have h4cur : s4.current_time = firstLeg.arrival_time := by
        obtain ⟨p, hp⟩ := selectLeg_state rng (applyLeg sA firstLeg) cfg haulType routes
          false false r2
        rw [hsel] at hp
        have h2 : s4 = { applyLeg sA firstLeg with preferred_airports := p } := hp
        rw [h2]
        rfl
      cases l2opt with
      | none =>
        refine hfinal [firstLeg] s4 r4 ?_ (List.pairwise_singleton _ _) ?_
        · intro l hl
          rcases List.mem_singleton.1 hl with rfl
          exact ⟨⟨hf_wf, hf_dur⟩, by omega, by omega⟩
        · rw [h4cur]
          omega
      | some secondLeg =>
        obtain ⟨sel2, hsel2R, hsl⟩ := selectLeg_shape rng (applyLeg sA firstLeg) cfg haulType
          routes false false _ secondLeg s4 r4 hsel
        have hs_wf : secondLeg.arrival_time =
            secondLeg.departure_time + secondLeg.duration_min := by
          rw [hsl]
          rfl
        have hs_dur : 0 ≤ secondLeg.duration_min := by
          rw [hsl]
          exact hdur sel2 hsel2R
        have hs_dep : secondLeg.departure_time =
            firstLeg.arrival_time + cfg.turnaround_time_minutes := by
          rw [hsl]
          rfl
        refine hfinal [firstLeg, secondLeg] (applyLeg s4 secondLeg) r4 ?_ ?_ ?_
        · intro l hl
          rcases List.mem_cons.1 hl with rfl | hl2
          · refine ⟨⟨hf_wf, hf_dur⟩, by omega, ?_⟩
            simp only [applyLeg_time]
            omega
          · rcases List.mem_singleton.1 hl2 with rfl
            refine ⟨⟨hs_wf, hs_dur⟩, by omega, ?_⟩
            simp only [applyLeg_time]
            omega
        · refine List.Pairwise.cons ?_ (List.pairwise_singleton _ _)
          intro b hb
          rcases List.mem_singleton.1 hb with rfl
          omega
        · simp only [applyLeg_time]
          omega
    · rw [if_neg hml]
      refine hfinal [firstLeg] (applyLeg sA firstLeg) r2 ?_ (List.pairwise_singleton _ _) ?_
      · intro l hl
        rcases List.mem_singleton.1 hl with rfl
        refine ⟨⟨hf_wf, hf_dur⟩, by omega, ?_⟩
        simp only [applyLeg_time]
        omega
      · simp only [applyLeg_time]
        omega

end FlightSched

namespace FlightSched

/-- `head?` only returns elements of the list. -/
theorem head?_mem_local {α : Type} (L : List α) (a : α) (h : L.head? = some a) : a ∈ L := by
  cases L with
  | nil => simp at h
  | cons x xs =>
    rw [List.head?_cons] at h
    rw [← Option.some.inj h]
    exact List.mem_cons_self x xs

/-- Day-loop chronology invariant: accumulated legs are well formed, arrive no
later than the loop clock and are pairwise ordered; stored repetition legs are
well formed. -/
def chronoInv (s : LoopSt) : Prop :=
  (∀ l ∈ s.legs,
    (l.arrival_time = l.departure_time + l.duration_min ∧ 0 ≤ l.duration_min) ∧
    l.arrival_time ≤ s.gs.current_time) ∧
  s.legs.Pairwise (fun a b => a.arrival_time ≤ b.departure_time) ∧
  (∀ l, s.repOut = some l →
    l.arrival_time = l.departure_time + l.duration_min ∧ 0 ≤ l.duration_min) ∧
  (∀ l, s.repRet = some l →
    l.arrival_time = l.departure_time + l.duration_min ∧ 0 ≤ l.duration_min)

/-- Post-trip processing preserves the chronology invariant when the trip legs
are chronologically sound relative to the pre-trip clock `t0`. -/
theorem dayStepFinish_chrono (cfg : ScheduleConfiguration) (haulType : HaulType)
    (d0 : Int) (s : LoopSt) (tr : TripResult) (t0 : Int)
    (hold : ∀ l ∈ s.legs,
      (l.arrival_time = l.departure_time + l.duration_min ∧ 0 ≤ l.duration_min) ∧
      l.arrival_time ≤ t0)
    (hpair : s.legs.Pairwise (fun a b => a.arrival_time ≤ b.departure_time))
    (hro : ∀ l, s.repOut = some l →
      l.arrival_time = l.departure_time + l.duration_min ∧ 0 ≤ l.duration_min)
    (hrr : ∀ l, s.repRet = some l →
      l.arrival_time = l.departure_time + l.duration_min ∧ 0 ≤ l.duration_min)
    (htr : ∀ l ∈ tr.legs,
      (l.arrival_time = l.departure_time + l.duration_min ∧ 0 ≤ l.duration_min) ∧
      t0 ≤ l.departure_time ∧ l.arrival_time ≤ s.gs.current_time)
    (htrpair : tr.legs.Pairwise (fun a b => a.arrival_time ≤ b.departure_time))
    (ht0 : t0 ≤ s.gs.current_time) :
    chronoInv (dayStepFinish cfg haulType d0 s tr) := by
  have hnew : ∀ l ∈ s.legs ++ tr.legs.filter
      (fun lg => decide (dayOf lg.departure_time = d0)),
      (l.arrival_time = l.departure_time + l.duration_min ∧ 0 ≤ l.duration_min) ∧
      l.arrival_time ≤ s.gs.current_time := by
    intro l hl
    rcases List.mem_append.1 hl with h1 | h1
    · obtain ⟨hw, ha⟩ := hold l h1
      exact ⟨hw, le_trans ha ht0⟩
    · obtain ⟨hw, -, ha⟩ := htr l (List.mem_of_mem_filter h1)
      exact ⟨hw, ha⟩
  have hnewpair : (s.legs ++ tr.legs.filter
      (fun lg => decide (dayOf lg.departure_time = d0))).Pairwise
      (fun a b => a.arrival_time ≤ b.departure_time) := by
    rw [List.pairwise_append]
    refine ⟨hpair, htrpair.sublist (List.filter_sublist _), ?_⟩
    intro a ha b hb
    obtain ⟨-, haa⟩ := hold a ha
    obtain ⟨-, hbd, -⟩ := htr b (List.mem_of_mem_filter hb)
    omega
  simp only [dayStepFinish]
  split
  · exact ⟨fun l hl => hold l hl |>.imp_right (fun ha => le_trans ha ht0), hpair, hro, hrr⟩
  · split
    · exact ⟨hnew, hnewpair, hro, hrr⟩
    · repeat' split
      all_goals exact ⟨hnew, hnewpair, hro, hrr⟩

/-- One loop iteration preserves the chronology invariant. -/
theorem dayStep_chrono (rng : Nat → Rat) (cfg : ScheduleConfiguration)
    (routes : List Route) (haulType : HaulType) (d0 : Int) (s : LoopSt)
    (hτ : 0 ≤ cfg.turnaround_time_minutes)
    (hstart : 0 ≤ startValue cfg.operating_hours)
    (hdur : ∀ r ∈ routes, 0 ≤ r.duration_min)
    (hinv : chronoInv s) :
    chronoInv (dayStep rng cfg routes haulType d0 s) := by
  obtain ⟨hlegs, hpair, hro, hrr⟩ := hinv
  simp only [dayStep]
  split
  · exact ⟨hlegs, hpair, hro, hrr⟩
  · split
    · next o r hm heq1 heq2 =>
      obtain ⟨ho1, ho2⟩ := hro o heq1
      obtain ⟨hr1, hr2⟩ := hrr r heq2
      obtain ⟨htr, htrpair, hcur⟩ := planRepeatedTrip_chrono s.gs cfg o r hτ ho1 ho2 hr1 hr2
      exact dayStepFinish_chrono cfg haulType d0 _ _ s.gs.current_time hlegs hpair hro hrr
        (fun l hl => ⟨(htr l hl).1, by have h2 := (htr l hl).2.1; omega, (htr l hl).2.2⟩) htrpair hcur
    · obtain ⟨htr, htrpair, hcur⟩ := planTrip_chrono rng s.gs cfg haulType routes s.ridx
        hτ hstart hdur
      split
      · refine dayStepFinish_chrono cfg haulType d0 _ _ s.gs.current_time hlegs hpair ?_ ?_
          (fun l hl => ⟨(htr l hl).1, by have h2 := (htr l hl).2.1; omega, (htr l hl).2.2⟩) htrpair hcur
        · intro l hl
          exact (htr l (head?_mem_local _ l hl)).1
        · intro l hl
          exact (htr l (getLast?_mem_local _ l hl)).1
      · exact dayStepFinish_chrono cfg haulType d0 _ _ s.gs.current_time hlegs hpair hro hrr
          (fun l hl => ⟨(htr l hl).1, by have h2 := (htr l hl).2.1; omega, (htr l hl).2.2⟩) htrpair hcur

/-- The whole loop preserves the chronology invariant. -/
theorem dayLoop_chrono (rng : Nat → Rat) (cfg : ScheduleConfiguration)
    (routes : List Route) (haulType : HaulType) (d0 : Int)
    (hτ : 0 ≤ cfg.turnaround_time_minutes)
    (hstart : 0 ≤ startValue cfg.operating_hours)
    (hdur : ∀ r ∈ routes, 0 ≤ r.duration_min) :
    ∀ (n : Nat) (s : LoopSt), chronoInv s →
      chronoInv (dayLoop rng cfg routes haulType d0 n s)
  | 0, _, h => h
  | Nat.succ n, s, h => by
    rw [dayLoop]
    split
    · exact h
    · exact dayLoop_chrono rng cfg routes haulType d0 hτ hstart hdur n _
        (dayStep_chrono rng cfg routes haulType d0 s hτ hstart hdur h)

/-- C9: every day built by the daily scheduler has well-formed, chronologically
ordered legs: arrival equals departure plus duration, and each leg departs no
earlier than the previous leg arrives (given non-negative turnaround, window
start and route durations). -/
theorem claim_C9_chronological (rng : Nat → Rat) (day : Nat) (gs : GeneratorState)
    (cfg : ScheduleConfiguration) (routes : List Route) (ridx : Nat)
    (hτ : 0 ≤ cfg.turnaround_time_minutes)
    (hstart : 0 ≤ startValue cfg.operating_hours)
    (hdur : ∀ r ∈ routes, 0 ≤ r.duration_min) :
    (∀ l ∈ (generateDailySchedule rng day gs cfg routes ridx).1.legs,
       l.arrival_time = l.departure_time + l.duration_min) ∧
    (generateDailySchedule rng day gs cfg routes ridx).1.legs.Chain'
      (fun a b => a.arrival_time ≤ b.departure_time) := by
  have hinit : chronoInv (dayLoopInit rng ridx gs cfg).2 := by
    refine ⟨?_, List.Pairwise.nil, ?_, ?_⟩
    · intro l hl
      exact absurd hl (List.not_mem_nil l)
    · intro l hl
      exact Option.noConfusion hl
    · intro l hl
      exact Option.noConfusion hl
  obtain ⟨hl1, hp1, -, -⟩ := dayLoop_chrono rng cfg routes (dayLoopInit rng ridx gs cfg).1
    gs.current_date hτ hstart hdur FUEL (dayLoopInit rng ridx gs cfg).2 hinit
  simp only [generateDailySchedule]
  split
  · exact ⟨fun l hl => (hl1 l hl).1.1, hp1.chain'⟩
  · exact ⟨fun l hl => (hl1 l hl).1.1, hp1.chain'⟩

/-- Witness for C9 at the baseline configuration and the LHR/CDG round trip. -/
theorem claim_C9_chronological_witness :
    ((0 : Int) ≤ cfgBase.turnaround_time_minutes ∧
     (0 : Int) ≤ startValue cfgBase.operating_hours ∧
     ∀ r ∈ [routeLHRCDG, routeCDGLHR], (0 : Int) ≤ r.duration_min) ∧
    ((∀ l ∈ (generateDailySchedule rngZero 1 (initializeState cfgBase 0) cfgBase
        [routeLHRCDG, routeCDGLHR] 0).1.legs,
       l.arrival_time = l.departure_time + l.duration_min) ∧
    (generateDailySchedule rngZero 1 (initializeState cfgBase 0) cfgBase
        [routeLHRCDG, routeCDGLHR] 0).1.legs.Chain'
      (fun a b => a.arrival_time ≤ b.departure_time)) :=
  ⟨⟨by decide, by decide, by decide⟩,
   claim_C9_chronological rngZero 1 (initializeState cfgBase 0) cfgBase
     [routeLHRCDG, routeCDGLHR] 0 (by decide) (by decide) (by decide)⟩

end FlightSched

namespace FlightSched

/-! ## Claim C8: termination of the trip-planning loop -/

/-- Pathological configuration: zero turnaround (below the validated minimum)
with repetition mode on. -/
def cfgC8 : ScheduleConfiguration :=
  { cfgBase with turnaround_time_minutes := 0, repetition_mode := true }

/-- Zero-duration outbound route. -/
def routeC8a : Route := { routeLHRCDG with duration_min := 0 }

/-- Zero-duration return route. -/
def routeC8b : Route := { routeCDGLHR with duration_min := 0 }

/-- The outbound leg flown (and replayed forever) in the C8 run. -/
def oC8 : FlightLeg :=
  { departure_airport := "LHR", arrival_airport := "CDG", departure_time := 360,
    arrival_time := 360, haul_type := .short, duration_min := 0, route_id := 1,
    departure_city := "London", departure_country := "United Kingdom",
    arrival_city := "Paris", arrival_country := "France", airline_iata := "BA",
    airline_name := "British Airways", distance_km := 350 }

/-- The return leg flown (and replayed forever) in the C8 run. -/
def rC8 : FlightLeg :=
  { departure_airport := "CDG", arrival_airport := "LHR", departure_time := 360,
    arrival_time := 360, haul_type := .short, duration_min := 0, route_id := 2,
    departure_city := "Paris", departure_country := "France",
    arrival_city := "London", arrival_country := "United Kingdom", airline_iata := "BA",
    airline_name := "British Airways", distance_km := 350 }

/-- Generator state at the start of the C8 run. -/
def gs0C8 : GeneratorState :=
  { current_airport := "LHR", current_date := 0, current_time := 360,
    visited_routes := [], visited_airports := [("LHR", 1)],
    long_haul_block_until := none, generated_days := [],
    consecutive_days_away_from_base := 0, future_legs := [], preferred_airports := [] }

/-- Generator state after the first (fresh) trip of the C8 run. -/
def gsBC8 : GeneratorState :=
  { current_airport := "LHR", current_date := 0, current_time := 360,
    visited_routes := [1, 2], visited_airports := [("LHR", 2), ("CDG", 1)],
    long_haul_block_until := none, generated_days := [],
    consecutive_days_away_from_base := 0, future_legs := [], preferred_airports := [] }

/-- Initial loop state of the C8 run. -/
def initC8 : LoopSt :=
  { gs := gs0C8, legs := [], notes := [], overnight := "LHR", repOut := none,
    repRet := none, ridx := 0, done := false }

/-- The family of loop states the C8 run cycles through: only the day legs and
the visit counts grow, the clock is stuck at 06:00 and the exit flag is never
set. -/
def C8st (L : List FlightLeg) (V : List (String × Nat)) : LoopSt :=
  { gs := { current_airport := "LHR", current_date := 0, current_time := 360,
            visited_routes := [1, 2], visited_airports := V,
            long_haul_block_until := none, generated_days := [],
            consecutive_days_away_from_base := 0, future_legs := [],
            preferred_airports := [] },
    legs := L, notes := [], overnight := "LHR", repOut := some oC8, repRet := some rC8,
    ridx := 1, done := false }

/-- One loop iteration of the C8 run replays the stored pair without advancing
the clock or setting the exit flag. -/
theorem C8_step (L : List FlightLeg) (V : List (String × Nat)) :
    dayStep rngZero cfgC8 [routeC8a, routeC8b] HaulType.short 0 (C8st L V) =
      C8st (L ++ [oC8, rC8]) (bumpVisit (bumpVisit V "CDG") "LHR") := by
  have hW : isWithinOperatingHours (360 + cfgC8.turnaround_time_minutes)
      cfgC8.operating_hours = true := by decide
  have hD : dayOf 360 = 0 := by decide
  simp only [dayStep, C8st, planRepeatedTrip, dayStepFinish, applyLeg, bumpVisit, oC8, rC8,
    insertIfAbsentNat, hW, hD]
  norm_num [isWithinOperatingHours, timeOfDay, startValue, endValue, cfgC8, cfgBase, dayOf,
    oC8, rC8, visitCountOf, List.filter]
  try simp
  try norm_num

/-- The first leg selection of the C8 run, evaluated. -/
theorem selectLeg_C8 :
    selectLeg rngZero gs0C8 cfgC8 HaulType.short [routeC8a, routeC8b] false false 0 =
      (some oC8, gs0C8, 1) := by
  simp only [selectLeg, routesFromAirport, airlineMatches, applyBiasing, biasRouteWeight,
    visitCountOf, getContinent, weightedRandomSelection, cumSelect, isWithinOperatingHours,
    timeOfDay, startValue, endValue, buildFlightLeg, calculateArrivalTime, classifyRoute,
    rngZero, cfgC8, cfgBase, routeC8a, routeC8b, routeLHRCDG, routeCDGLHR, gs0C8, oC8,
    List.filter, List.map, List.isEmpty, List.lookup, List.contains, List.find?, List.any,
    List.sum, List.getD, List.elem]
  norm_num
  try simp
  try norm_num

/-- The whole first loop iteration of the C8 run. -/
theorem C8_step0 :
    dayStep rngZero cfgC8 [routeC8a, routeC8b] HaulType.short 0 initC8 =
      C8st [oC8, rC8] [("LHR", 2), ("CDG", 1)] := by
  have h_style : selectDayStyle rngZero cfgC8 0 = (true, 0) := by decide
  have h_trip : planTrip rngZero gs0C8 cfgC8 HaulType.short [routeC8a, routeC8b] 0 =
      ({ success := true, message := "Trip planned successfully", legs := [oC8, rC8] },
       gsBC8, 1) := by
    simp only [planTrip, h_style, selectLeg_C8]
    decide
  have hrep : cfgC8.repetition_mode = true := rfl
  simp only [dayStep, initC8, hrep, h_trip]
  decide

/-- No amount of fuel makes the C8 loop stop from a cycling state. -/
theorem C8_never_done :
    ∀ (n : Nat) (L : List FlightLeg) (V : List (String × Nat)),
      (dayLoop rngZero cfgC8 [routeC8a, routeC8b] HaulType.short 0 n (C8st L V)).done = false
  | 0, _, _ => rfl
  | Nat.succ n, L, V => by
    rw [dayLoop_step rngZero cfgC8 [routeC8a, routeC8b] HaulType.short 0 n (C8st L V) rfl,
      C8_step L V]
    exact C8_never_done n _ _

/-- With repetition mode on, a zero turnaround and a zero-duration round
trip, the exit flag of the trip-planning loop is still unset after any number
of iterations. -/
theorem C8_loop_never :
    ∀ n : Nat,
      (dayLoop rngZero cfgC8 [routeC8a, routeC8b]
        (dayLoopInit rngZero 0 (initializeState cfgC8 0) cfgC8).1
        (initializeState cfgC8 0).current_date n
        (dayLoopInit rngZero 0 (initializeState cfgC8 0) cfgC8).2).done = false := by
  intro n
  have h1 : dayLoopInit rngZero 0 (initializeState cfgC8 0) cfgC8 =
      (HaulType.short, initC8) := by decide
  have h2 : (initializeState cfgC8 0).current_date = 0 := by decide
  simp only [h1, h2]
  cases n with
  | zero => rfl
  | succ n =>
    rw [dayLoop_step rngZero cfgC8 [routeC8a, routeC8b] HaulType.short 0 n initC8 rfl,
      C8_step0]
    exact C8_never_done n _ _

/-- C8 counterexample: with repetition mode on, a zero turnaround (below the
validated minimum of 30) and a zero-duration round trip, the trip-planning
loop of `generateDailySchedule` never sets its exit flag: not within the
whole fuel budget, and not after any number of iterations whatsoever — the
while-loop does not terminate. -/
theorem claim_C8_counterexample :
    (dayLoop rngZero cfgC8 [routeC8a, routeC8b]
      (dayLoopInit rngZero 0 (initializeState cfgC8 0) cfgC8).1
      (initializeState cfgC8 0).current_date FUEL
      (dayLoopInit rngZero 0 (initializeState cfgC8 0) cfgC8).2).done = false ∧
    (∀ n : Nat,
      (dayLoop rngZero cfgC8 [routeC8a, routeC8b]
        (dayLoopInit rngZero 0 (initializeState cfgC8 0) cfgC8).1
        (initializeState cfgC8 0).current_date n
        (dayLoopInit rngZero 0 (initializeState cfgC8 0) cfgC8).2).done = false) :=
  ⟨C8_loop_never FUEL, C8_loop_never⟩

end FlightSched

namespace FlightSched

/-- Post-trip processing either sets the exit flag, or keeps it, keeps the
clock past `t` and leaves the clock inside the original calendar day. -/
theorem finish_progress2 (cfg : ScheduleConfiguration) (haulType : HaulType)
    (d0 : Int) (s1 : LoopSt) (tr : TripResult) (t : Int)
    (hcur : tr.success = true → t + 1 ≤ s1.gs.current_time) :
    (dayStepFinish cfg haulType d0 s1 tr).done = true ∨
    ((dayStepFinish cfg haulType d0 s1 tr).done = s1.done ∧
     t + 1 ≤ (dayStepFinish cfg haulType d0 s1 tr).gs.current_time ∧
     dayOf (dayStepFinish cfg haulType d0 s1 tr).gs.current_time = d0) := by
  simp only [dayStepFinish]
  split
  · left
    rfl
  · next hsucc =>
    have hs : tr.success = true := by
      cases h2 : tr.success
      · exact absurd h2 hsucc
      · rfl
    have hc := hcur hs
    split
    · left
      rfl
    · split
      · split
        · left
          rfl
        · next hcond =>
          simp only [not_or, Bool.not_eq_false, decide_eq_true_eq] at hcond
          right
          exact ⟨rfl, hc, hcond.2⟩
      · split
        · left
          rfl
        · next hcond =>
          simp only [not_or, Bool.not_eq_false, decide_eq_true_eq] at hcond
          right
          exact ⟨rfl, hc, hcond.2⟩

/-- One live loop iteration either sets the exit flag or strictly advances the
clock while staying inside the original calendar day. -/
theorem dayStep_progress (rng : Nat → Rat) (cfg : ScheduleConfiguration)
    (routes : List Route) (haulType : HaulType) (d0 : Int) (s : LoopSt)
    (hτ : 1 ≤ cfg.turnaround_time_minutes)
    (hstart : 0 ≤ startValue cfg.operating_hours)
    (hdur : ∀ r ∈ routes, 0 ≤ r.duration_min)
    (hinv : chronoInv s) :
    (dayStep rng cfg routes haulType d0 s).done = true ∨
    (s.gs.current_time + 1 ≤ (dayStep rng cfg routes haulType d0 s).gs.current_time ∧
     dayOf (dayStep rng cfg routes haulType d0 s).gs.current_time = d0) := by
  obtain ⟨hlegs, hpair, hro, hrr⟩ := hinv
  have hτ0 : 0 ≤ cfg.turnaround_time_minutes := by omega
  simp only [dayStep]
  split
  · left
    rfl
  · split
    · next o r hm heq1 heq2 =>
      obtain ⟨ho1, ho2⟩ := hro o heq1
      obtain ⟨hr1, hr2⟩ := hrr r heq2
      obtain ⟨htr, htrpair, hcur⟩ := planRepeatedTrip_chrono s.gs cfg o r hτ0 ho1 ho2 hr1 hr2
      have hc : (planRepeatedTrip s.gs cfg o r).1.success = true →
          s.gs.current_time + 1 ≤ (planRepeatedTrip s.gs cfg o r).2.current_time := by
        intro hsu
        obtain ⟨l, hl⟩ := List.exists_mem_of_ne_nil _
          (planRepeatedTrip_success_legs s.gs cfg o r hsu)
        obtain ⟨⟨hw, hd⟩, hdep, harr⟩ := htr l hl
        omega
      rcases finish_progress2 cfg haulType d0
          { s with gs := (planRepeatedTrip s.gs cfg o r).2 }
          (planRepeatedTrip s.gs cfg o r).1 s.gs.current_time hc with h | ⟨-, hge, hday⟩
      · left
        exact h
      · right
        exact ⟨hge, hday⟩
    · obtain ⟨htr, htrpair, hcur⟩ := planTrip_chrono rng s.gs cfg haulType routes s.ridx
        hτ0 hstart hdur
      have hc : (planTrip rng s.gs cfg haulType routes s.ridx).1.success = true →
          s.gs.current_time + 1 ≤
            (planTrip rng s.gs cfg haulType routes s.ridx).2.1.current_time := by
        intro hsu
        obtain ⟨l, hl⟩ := List.exists_mem_of_ne_nil _
          (planTrip_success_legs rng s.gs cfg haulType routes s.ridx hsu)
        obtain ⟨⟨hw, hd⟩, hdep, harr⟩ := htr l hl
        omega
      split
      · refine Or.imp (fun h => h) (fun h => ⟨h.2.1, h.2.2⟩)
          (finish_progress2 cfg haulType d0 _ _ s.gs.current_time ?_)
        exact hc
      · refine Or.imp (fun h => h) (fun h => ⟨h.2.1, h.2.2⟩)
          (finish_progress2 cfg haulType d0 _ _ s.gs.current_time ?_)
        exact hc

/-- With a positive turnaround the loop sets its exit flag within
`remaining minutes of the day + 1` iterations from any live state. -/
theorem dayLoop_exits (rng : Nat → Rat) (cfg : ScheduleConfiguration)
    (routes : List Route) (haulType : HaulType) (d0 : Int)
    (hτ : 1 ≤ cfg.turnaround_time_minutes)
    (hstart : 0 ≤ startValue cfg.operating_hours)
    (hdur : ∀ r ∈ routes, 0 ≤ r.duration_min) :
    ∀ (k : Nat) (s : LoopSt), chronoInv s →
      ((d0 + 1) * 1440 - s.gs.current_time).toNat ≤ k →
      (dayLoop rng cfg routes haulType d0 (k + 1) s).done = true
  | 0, s, hinv, hk => by
    have hτ0 : 0 ≤ cfg.turnaround_time_minutes := by omega
    by_cases hd : s.done = true
    · rw [dayLoop_done rng cfg routes haulType d0 1 s hd]
      exact hd
    · have hd' : s.done = false := by
        cases h2 : s.done
        · rfl
        · exact absurd h2 hd
      rw [dayLoop_step rng cfg routes haulType d0 0 s hd']
      rcases dayStep_progress rng cfg routes haulType d0 s hτ hstart hdur hinv
        with h | ⟨hge, hday⟩
      · exact h
      · exfalso
        rw [dayOf_eq_div] at hday
        omega
  | Nat.succ k, s, hinv, hk => by
    by_cases hd : s.done = true
    · rw [dayLoop_done rng cfg routes haulType d0 (k + 1 + 1) s hd]
      exact hd
    · have hd' : s.done = false := by
        cases h2 : s.done
        · rfl
        · exact absurd h2 hd
      rw [dayLoop_step rng cfg routes haulType d0 (k + 1) s hd']
      rcases dayStep_progress rng cfg routes haulType d0 s hτ hstart hdur hinv
        with h | ⟨hge, hday⟩
      · rw [dayLoop_done rng cfg routes haulType d0 (k + 1) _ h]
        exact h
      · refine dayLoop_exits rng cfg routes haulType d0 hτ hstart hdur k
          (dayStep rng cfg routes haulType d0 s)
          (dayStep_chrono rng cfg routes haulType d0 s (by omega) hstart hdur
            ⟨hinv.1, hinv.2.1, hinv.2.2.1, hinv.2.2.2⟩) ?_
        rw [dayOf_eq_div] at hday
        omega

/-- C8 (amended): whenever the turnaround time is at least one minute, the
window start is non-negative and all route durations are non-negative (all
guaranteed by `validateConfiguration`, which requires a turnaround of at
least 30), the trip-planning loop of `generateDailySchedule` sets its exit
flag after finitely many iterations: each live iteration either exits or
strictly advances the clock within the fixed calendar day, so the loop
cannot run forever. -/
theorem claim_C8_amended (rng : Nat → Rat) (ridx : Nat) (gs : GeneratorState)
    (cfg : ScheduleConfiguration) (routes : List Route)
    (hτ : 1 ≤ cfg.turnaround_time_minutes)
    (hstart : 0 ≤ startValue cfg.operating_hours)
    (hdur : ∀ r ∈ routes, 0 ≤ r.duration_min) :
    ∃ n : Nat,
      (dayLoop rng cfg routes (dayLoopInit rng ridx gs cfg).1 gs.current_date n
        (dayLoopInit rng ridx gs cfg).2).done = true := by
  refine ⟨((gs.current_date + 1) * 1440 - gs.current_time).toNat + 1, ?_⟩
  refine dayLoop_exits rng cfg routes (dayLoopInit rng ridx gs cfg).1 gs.current_date
    hτ hstart hdur _ _ ?_ ?_
  · refine ⟨?_, List.Pairwise.nil, ?_, ?_⟩
    · intro l hl
      exact absurd hl (List.not_mem_nil l)
    · intro l hl
      exact Option.noConfusion hl
    · intro l hl
      exact Option.noConfusion hl
  · exact le_refl _

/-- C8 amended witness: with the baseline configuration the loop exits. -/
theorem claim_C8_amended_witness :
    (1 ≤ cfgBase.turnaround_time_minutes ∧ 0 ≤ startValue cfgBase.operating_hours ∧
      ∀ r ∈ [routeLHRCDG, routeCDGLHR], 0 ≤ r.duration_min) ∧
    ∃ n : Nat,
      (dayLoop rngZero cfgBase [routeLHRCDG, routeCDGLHR]
        (dayLoopInit rngZero 0 (initializeState cfgBase 0) cfgBase).1
        (initializeState cfgBase 0).current_date n
        (dayLoopInit rngZero 0 (initializeState cfgBase 0) cfgBase).2).done = true :=
  ⟨⟨by decide, by decide, by decide⟩,
   claim_C8_amended rngZero 0 (initializeState cfgBase 0) cfgBase [routeLHRCDG, routeCDGLHR]
     (by decide) (by decide) (by decide)⟩

end FlightSched

namespace FlightSched

/-! ## Claim C1: counterexample fixtures (validated configuration, divergent run) -/

/-- Configuration that passes `validateConfiguration` (turnaround 30, all
ranges respected) with repetition mode on — validation inspects neither
`repetition_mode` nor route durations. -/
def cfgC1x : ScheduleConfiguration := { cfgBase with repetition_mode := true }

/-- Negative-duration outbound route (not rejected by any validation). -/
def routeC1a : Route := { routeLHRCDG with duration_min := -30 }

/-- Negative-duration return route. -/
def routeC1b : Route := { routeCDGLHR with duration_min := -30 }

/-- The outbound leg flown (and replayed forever) in the C1 run: it departs at
06:30 and "arrives" at 06:00, pinning the clock. -/
def oC1 : FlightLeg :=
  { departure_airport := "LHR", arrival_airport := "CDG", departure_time := 390,
    arrival_time := 360, haul_type := .short, duration_min := -30, route_id := 1,
    departure_city := "London", departure_country := "United Kingdom",
    arrival_city := "Paris", arrival_country := "France", airline_iata := "BA",
    airline_name := "British Airways", distance_km := 350 }

/-- The return leg flown (and replayed forever) in the C1 run. -/
def rC1 : FlightLeg :=
  { departure_airport := "CDG", arrival_airport := "LHR", departure_time := 390,
    arrival_time := 360, haul_type := .short, duration_min := -30, route_id := 2,
    departure_city := "Paris", departure_country := "France",
    arrival_city := "London", arrival_country := "United Kingdom", airline_iata := "BA",
    airline_name := "British Airways", distance_km := 350 }

/-- Generator state at the start of the C1 run. -/
def gs0C1 : GeneratorState :=
  { current_airport := "LHR", current_date := 0, current_time := 360,
    visited_routes := [], visited_airports := [("LHR", 1)],
    long_haul_block_until := none, generated_days := [],
    consecutive_days_away_from_base := 0, future_legs := [], preferred_airports := [] }

/-- Generator state after the first (fresh) trip of the C1 run. -/
def gsBC1 : GeneratorState :=
  { current_airport := "LHR", current_date := 0, current_time := 360,
    visited_routes := [1, 2], visited_airports := [("LHR", 2), ("CDG", 1)],
    long_haul_block_until := none, generated_days := [],
    consecutive_days_away_from_base := 0, future_legs := [], preferred_airports := [] }

/-- Initial loop state of the C1 run. -/
def initC1 : LoopSt :=
  { gs := gs0C1, legs := [], notes := [], overnight := "LHR", repOut := none,
    repRet := none, ridx := 0, done := false }

/-- The family of loop states the C1 run cycles through: only the day legs and
the visit counts grow, the clock is stuck at 06:00 and the exit flag is never
set. -/
def C1st (L : List FlightLeg) (V : List (String × Nat)) : LoopSt :=
  { gs := { current_airport := "LHR", current_date := 0, current_time := 360,
            visited_routes := [1, 2], visited_airports := V,
            long_haul_block_until := none, generated_days := [],
            consecutive_days_away_from_base := 0, future_legs := [],
            preferred_airports := [] },
    legs := L, notes := [], overnight := "LHR", repOut := some oC1, repRet := some rC1,
    ridx := 1, done := false }

/-- One loop iteration of the C1 run replays the stored pair without advancing
the clock or setting the exit flag. -/
theorem C1_step (L : List FlightLeg) (V : List (String × Nat)) :
    dayStep rngZero cfgC1x [routeC1a, routeC1b] HaulType.short 0 (C1st L V) =
      C1st (L ++ [oC1, rC1]) (bumpVisit (bumpVisit V "CDG") "LHR") := by
  have hW : isWithinOperatingHours (360 + cfgC1x.turnaround_time_minutes)
      cfgC1x.operating_hours = true := by decide
  have hD : dayOf 360 = 0 := by decide
  simp only [dayStep, C1st, planRepeatedTrip, dayStepFinish, applyLeg, bumpVisit, oC1, rC1,
    insertIfAbsentNat, hW, hD]
  norm_num [isWithinOperatingHours, timeOfDay, startValue, endValue, cfgC1x, cfgBase, dayOf,
    oC1, rC1, visitCountOf, List.filter]
  try simp
  try norm_num

/-- The first leg selection of the C1 run, evaluated. -/
theorem selectLeg_C1 :
    selectLeg rngZero gs0C1 cfgC1x HaulType.short [routeC1a, routeC1b] false false 0 =
      (some oC1, gs0C1, 1) := by
  simp only [selectLeg, routesFromAirport, airlineMatches, applyBiasing, biasRouteWeight,
    visitCountOf, getContinent, weightedRandomSelection, cumSelect, isWithinOperatingHours,
    timeOfDay, startValue, endValue, buildFlightLeg, calculateArrivalTime, classifyRoute,
    rngZero, cfgC1x, cfgBase, routeC1a, routeC1b, routeLHRCDG, routeCDGLHR, gs0C1, oC1,
    List.filter, List.map, List.isEmpty, List.lookup, List.contains, List.find?, List.any,
    List.sum, List.getD, List.elem]
  norm_num
  try simp
  try norm_num

/-- The whole first loop iteration of the C1 run. -/
theorem C1_step0 :
    dayStep rngZero cfgC1x [routeC1a, routeC1b] HaulType.short 0 initC1 =
      C1st [oC1, rC1] [("LHR", 2), ("CDG", 1)] := by
  have h_style : selectDayStyle rngZero cfgC1x 0 = (true, 0) := by decide
  have h_trip : planTrip rngZero gs0C1 cfgC1x HaulType.short [routeC1a, routeC1b] 0 =
      ({ success := true, message := "Trip planned successfully", legs := [oC1, rC1] },
       gsBC1, 1) := by
    simp only [planTrip, h_style, selectLeg_C1]
    decide
  have hrep : cfgC1x.repetition_mode = true := rfl
  simp only [dayStep, initC1, hrep, h_trip]
  decide

/-- No amount of fuel makes the C1 loop stop from a cycling state. -/
theorem C1_never_done :
    ∀ (n : Nat) (L : List FlightLeg) (V : List (String × Nat)),
      (dayLoop rngZero cfgC1x [routeC1a, routeC1b] HaulType.short 0 n (C1st L V)).done = false
  | 0, _, _ => rfl
  | Nat.succ n, L, V => by
    rw [dayLoop_step rngZero cfgC1x [routeC1a, routeC1b] HaulType.short 0 n (C1st L V) rfl,
      C1_step L V]
    exact C1_never_done n _ _

/-- From the initial state of day 1, the exit flag of the C1 loop is still
unset after any number of iterations. -/
theorem C1_loop_never :
    ∀ n : Nat,
      (dayLoop rngZero cfgC1x [routeC1a, routeC1b]
        (dayLoopInit rngZero 0 (initializeState cfgC1x 0) cfgC1x).1
        (initializeState cfgC1x 0).current_date n
        (dayLoopInit rngZero 0 (initializeState cfgC1x 0) cfgC1x).2).done = false := by
  intro n
  have h1 : dayLoopInit rngZero 0 (initializeState cfgC1x 0) cfgC1x =
      (HaulType.short, initC1) := by decide
  have h2 : (initializeState cfgC1x 0).current_date = 0 := by decide
  simp only [h1, h2]
  cases n with
  | zero => rfl
  | succ n =>
    rw [dayLoop_step rngZero cfgC1x [routeC1a, routeC1b] HaulType.short 0 n initC1 rfl,
      C1_step0]
    exact C1_never_done n _ _

/-- C1 counterexample: a configuration that passes `validateConfiguration`
(turnaround 30, repetition mode on — validation checks neither repetition
mode nor route durations) together with a non-empty route list holding a
negative-duration round trip makes day 1's trip-planning loop replay the
stored pair forever at a frozen clock: the exit flag is unset after the whole
fuel budget and after any number of iterations, so the source's while-loop
never exits and `generateSchedule` never returns a schedule — the day-count
guarantee fails for this valid configuration and non-empty route list. -/
theorem claim_C1_counterexample :
    validateConfiguration cfgC1x = true ∧
    [routeC1a, routeC1b] ≠ ([] : List Route) ∧
    (dayLoop rngZero cfgC1x [routeC1a, routeC1b]
      (dayLoopInit rngZero 0 (initializeState cfgC1x 0) cfgC1x).1
      (initializeState cfgC1x 0).current_date FUEL
      (dayLoopInit rngZero 0 (initializeState cfgC1x 0) cfgC1x).2).done = false ∧
    (∀ n : Nat,
      (dayLoop rngZero cfgC1x [routeC1a, routeC1b]
        (dayLoopInit rngZero 0 (initializeState cfgC1x 0) cfgC1x).1
        (initializeState cfgC1x 0).current_date n
        (dayLoopInit rngZero 0 (initializeState cfgC1x 0) cfgC1x).2).done = false) :=
  ⟨by decide, by simp, C1_loop_never FUEL, C1_loop_never⟩

end FlightSched
